import Mathlib

/-!
Verification development for the Archon knowledge-graph ingestion pipeline
(`python/src/server/services/knowledge_graph/`): a shallow embedding of the
file filter, the tree-sitter-less pattern parser, the graph builder, the
query engine and the orchestrator's control flow, together with theorems
about the behaviours the specification ascribes to them.

Conventions of the embedding:
* Python strings are modelled over their character lists (`List Char`);
  the string helpers below (`pyStrip`, `pySplitWs`, ...) reproduce the
  CPython semantics of the corresponding methods for ASCII text (the
  whitespace set is the six ASCII whitespace characters).
* `uuid4()` is modelled by a fresh-identifier supply threaded through the
  parser (ids are natural numbers); relationship ids drawn by the graph
  builder are never read by any code in scope and are modelled as 0.
* Wall-clock readings (`time.time()`) are modelled as 0.
* Exceptions are modelled by `Except PyErr`; `PyErr.exception` is an
  `Exception` subclass (caught by `except Exception`) while
  `PyErr.cancelled` models `asyncio.CancelledError`, which derives from
  `BaseException` only and passes through `except Exception` handlers.
-/

namespace Archon

/-! ### Python string semantics helpers -/

/-- The six ASCII whitespace characters recognised by `str.strip` / `str.split`. -/
def pyIsSpace (c : Char) : Bool :=
  c = ' ' || c = '\t' || c = '\n' || c = '\r' || c = '\x0b' || c = '\x0c'

/-- `str.strip()` on a character list. -/
def pyStripList (l : List Char) : List Char :=
  ((l.dropWhile pyIsSpace).reverse.dropWhile pyIsSpace).reverse

/-- `str.strip()`. -/
def pyStrip (s : String) : String := ⟨pyStripList s.data⟩

/-- `len(s) - len(s.lstrip())`: the indentation depth of a line. -/
def pyIndent (s : String) : Nat := (s.data.takeWhile pyIsSpace).length

/-- `str.startswith(p)`. -/
def pyStarts (p s : String) : Bool := p.data.isPrefixOf s.data

/-- `str.endswith(p)`. -/
def pyEnds (p s : String) : Bool := p.data.reverse.isPrefixOf s.data.reverse

/-- `str.lower()` (ASCII). -/
def pyLower (s : String) : String := ⟨s.data.map Char.toLower⟩

/-- Substring containment, Python's `sub in s`. -/
def pySubList : List Char → List Char → Bool
  | n, [] => n.isEmpty
  | n, c :: cs => n.isPrefixOf (c :: cs) || pySubList n cs

/-- Python's `sub in s`. -/
def pyIn (sub s : String) : Bool := pySubList sub.data s.data

/-- `str.count(c)` for a single character. -/
def pyCountChar (s : String) (c : Char) : Nat := s.data.count c

/-- Non-overlapping substring count, structurally recursive on a fuel that
the wrapper instantiates with the text length (a dropped match always
consumes at least one character, so the fuel never runs out; the fuel is
purely a termination device). -/
def pyCountSubGo (n : List Char) : Nat → List Char → Nat
  | _, [] => 0
  | 0, _ :: _ => 0
  | fuel + 1, c :: cs =>
    if n ≠ [] ∧ n.isPrefixOf (c :: cs) then 1 + pyCountSubGo n fuel ((c :: cs).drop n.length)
    else pyCountSubGo n fuel cs

/-- `str.count(sub)`. -/
def pyCountSub (sub s : String) : Nat := pyCountSubGo sub.data s.data.length s.data

/-- `str.replace(old, new)` (all non-overlapping occurrences, left to
right), fueled like `pyCountSubGo`. -/
def pyReplaceGo (n r : List Char) : Nat → List Char → List Char
  | _, [] => []
  | 0, l => l
  | fuel + 1, c :: cs =>
    if n ≠ [] ∧ n.isPrefixOf (c :: cs) then r ++ pyReplaceGo n r fuel ((c :: cs).drop n.length)
    else c :: pyReplaceGo n r fuel cs

/-- `str.replace(old, new)`. -/
def pyReplace (old new s : String) : String :=
  ⟨pyReplaceGo old.data new.data s.data.length s.data⟩

/-- `str.split(sep)` for a nonempty separator, fueled like `pyCountSubGo`. -/
def pySplitGo (sep : List Char) : Nat → List Char → List Char → List (List Char)
  | _, cur, [] => [cur.reverse]
  | 0, cur, l => [cur.reverse ++ l]
  | fuel + 1, cur, c :: cs =>
    if sep ≠ [] ∧ sep.isPrefixOf (c :: cs) then
      cur.reverse :: pySplitGo sep fuel [] ((c :: cs).drop sep.length)
    else pySplitGo sep fuel (c :: cur) cs

/-- `str.split(sep)` (nonempty separator). -/
def pySplit (sep s : String) : List String :=
  (pySplitGo sep.data s.data.length [] s.data).map (fun l => ⟨l⟩)

/-- `str.split()` (split on whitespace runs), fueled like `pyCountSubGo`. -/
def pySplitWsGo : Nat → List Char → List (List Char)
  | _, [] => []
  | 0, _ :: _ => []
  | fuel + 1, c :: cs =>
    if pyIsSpace c then pySplitWsGo fuel cs
    else (c :: cs.takeWhile (fun d => !(pyIsSpace d)))
          :: pySplitWsGo fuel (cs.dropWhile (fun d => !(pyIsSpace d)))

/-- `str.split()`. -/
def pySplitWs (s : String) : List String :=
  (pySplitWsGo s.data.length s.data).map (fun l => ⟨l⟩)

/-- `'\n'`-only model of `str.splitlines()` (the repository content in scope
uses `\n` line endings). -/
def pySplitlines (s : String) : List String :=
  let p := pySplit "\n" s
  if p.getLast? = some "" then p.dropLast else p

/-- `'sep'.join(parts)`. -/
def pyJoin (sep : String) : List String → String
  | [] => ""
  | [x] => x
  | x :: y :: rest => x ++ sep ++ pyJoin sep (y :: rest)

/-- `s[:n]` (Python slices count code points). -/
def pyTake (s : String) (n : Nat) : String := ⟨s.data.take n⟩

/-- `lst[i]` with a default: used only where a guard in the source makes the
index valid (justified at each use site). -/
def pyGetD (l : List String) (i : Nat) (d : String) : String := (l.get? i).getD d

/-- Head of `str.split(sep)` output, i.e. `s.split(sep)[0]`, always valid. -/
def pyHeadD (l : List String) : String := (l.get? 0).getD ""

/-- Python truthiness of an optional integer column (``None`` and ``0`` are falsy). -/
def pyTruthyNat : Option Nat → Bool
  | none => false
  | some n => n ≠ 0

/-- `x or y` on two optional integers where the result is known to be an
integer because at least one operand is truthy at the call site. -/
def pyOrNat (x y : Option Nat) : Nat :=
  if pyTruthyNat x then x.getD 0 else y.getD 0

/-! ### `pathlib.PurePosixPath` helpers -/

/-- `Path(p).parts` for a POSIX path (empty and `.` components dropped,
a leading `/` contributes the root part). -/
def pyPathParts (p : String) : List String :=
  let comps := (pySplit "/" p).filter (fun c => c ≠ "" && c ≠ ".")
  if pyStarts "/" p then "/" :: comps else comps

/-- `Path(p).name`. -/
def pyPathName (p : String) : String :=
  match (pyPathParts p).getLast? with
  | some last => if last = "/" then "" else last
  | none => ""

/-- `Path(p).suffix`: `name[i:]` for the last dot at `0 < i < len(name) - 1`. -/
def pyPathSuffix (p : String) : String :=
  let n := (pyPathName p).data
  match (n.reverse.findIdx? (· = '.')) with
  | none => ""
  | some k =>
    let i := n.length - 1 - k
    if 0 < i ∧ i < n.length - 1 then ⟨n.drop i⟩ else ""

/-! ### Exceptions -/

/-- Python exceptions in scope.  `exception name msg` is an `Exception`
subclass carrying `str(e) = msg`; `cancelled` is `asyncio.CancelledError`,
which derives from `BaseException` only. -/
inductive PyErr where
  | exception (name : String) (msg : String)
  | cancelled (msg : String)
deriving DecidableEq

/-- Whether `except Exception` catches this error. -/
def PyErr.isException : PyErr → Bool
  | .exception _ _ => true
  | .cancelled _ => false

/-- `str(e)`. -/
def PyErr.str : PyErr → String
  | .exception _ m => m
  | .cancelled m => m

/-! ### Data model (`models.py`) -/

/-- `NodeType` (models.py). -/
inductive NodeType where
  | file | class_ | function | method | variable_ | import_
  | interface | enum | module | namespace_
deriving DecidableEq

/-- `RelationshipType` (models.py). -/
inductive RelationshipType where
  | calls | inherits | imports | uses | defines | contains
  | depends_on | implements | extends_
deriving DecidableEq

/-- `ParsingStatus` (models.py). -/
inductive ParsingStatus where
  | pending | processing | completed | failed | disabled
deriving DecidableEq

/-- Values stored in the free-form `properties` / `context_info` dicts. -/
inductive PyVal where
  | s (v : String)
  | i (v : Int)
  | b (v : Bool)
deriving DecidableEq

/-- `KGNode` (models.py); `id` is a natural drawn from the uuid4 supply. -/
structure KGNode where
  id : Nat
  kg_repository_id : Nat
  node_type : NodeType
  name : String
  fully_qualified_name : Option String := none
  file_path : String
  line_start : Option Nat := none
  line_end : Option Nat := none
  language : String
  properties : List (String × PyVal) := []
  source_code : Option String := none
  docstring : Option String := none
  complexity_score : Option Nat := none
  is_public : Bool := true
deriving DecidableEq

/-- `KGRelationship` (models.py). -/
structure KGRelationship where
  id : Nat
  source_node_id : Nat
  target_node_id : Nat
  relationship_type : RelationshipType
  confidence_score : ℚ := 1
  context_info : List (String × PyVal) := []
deriving DecidableEq

/-- `FileParseResult` (models.py); `parse_time_ms` is modelled as 0. -/
structure FileParseResult where
  file_path : String
  language : String
  success : Bool
  nodes_extracted : Nat
  relationships_extracted : Nat
  parse_time_ms : Nat := 0
  error : Option String := none
deriving DecidableEq

/-- `LanguageConfig` (models.py); `complexity_enabled` defaults to `True`. -/
structure LanguageConfig where
  language : String
  file_extensions : List String
  tree_sitter_grammar : String
  supported_node_types : List NodeType
  complexity_enabled : Bool := true
deriving DecidableEq

/-! ### File filter (`file_filter.py`) -/

/-- `fnmatch` glob matching with `*` and `?` (the exclusion patterns use no
character classes); both arguments are lowercased by the caller, as in
`FileFilter._matches_excluded_pattern`.  Structurally recursive on a fuel
instantiated with `pat.length + s.length + 1`, which every branch respects. -/
def fnmatchGo : Nat → List Char → List Char → Bool
  | 0, _, _ => false
  | _ + 1, [], [] => true
  | _ + 1, [], _ :: _ => false
  | fuel + 1, '*' :: ps, s =>
    fnmatchGo fuel ps s ||
      (match s with
       | [] => false
       | _ :: cs => fnmatchGo fuel ('*' :: ps) cs)
  | fuel + 1, '?' :: ps, _ :: cs => fnmatchGo fuel ps cs
  | _ + 1, '?' :: _, [] => false
  | fuel + 1, p :: ps, c :: cs => p = c && fnmatchGo fuel ps cs
  | _ + 1, _ :: _, [] => false

/-- `fnmatch.fnmatch` on already-lowercased inputs. -/
def fnmatchList (pat s : List Char) : Bool :=
  fnmatchGo (pat.length + s.length + 1) pat s

/-- `FileFilter` state (`file_filter.py`). -/
structure FileFilter where
  excluded_extensions : List String
  excluded_patterns : List String
  excluded_directories : List String
  max_file_size_kb : Nat := 500
deriving DecidableEq

/-- `FileFilter._get_default_excluded_extensions`. -/
def defaultExcludedExtensions : List String :=
  [".yaml", ".yml", ".json", ".toml", ".ini", ".cfg", ".conf",
   ".md", ".txt", ".rst", ".adoc", ".tex",
   ".lock", ".frozen", ".pipfile", ".poetry.lock", "package-lock.json",
   "yarn.lock", "composer.lock", "Gemfile.lock", "Cargo.lock",
   ".png", ".jpg", ".jpeg", ".gif", ".bmp", ".svg", ".ico",
   ".pdf", ".doc", ".docx", ".xls", ".xlsx", ".ppt", ".pptx",
   ".zip", ".tar", ".gz", ".bz2", ".rar", ".7z",
   ".exe", ".bin", ".so", ".dll", ".dylib",
   ".swp", ".swo", ".tmp", ".bak", ".backup", ".orig",
   ".ds_store", "thumbs.db", "desktop.ini",
   ".log", ".logs",
   ".db", ".sqlite", ".sqlite3",
   ".pem", ".key", ".crt", ".cer", ".p12", ".pfx",
   ".env", ".env.local", ".env.production", ".env.development",
   ".min.js", ".min.css", ".bundle.js", ".bundle.css"]

/-- `FileFilter._get_default_excluded_patterns`. -/
def defaultExcludedPatterns : List String :=
  ["package-lock.json", "yarn.lock", "composer.lock", "Gemfile.lock",
   "Pipfile.lock", "poetry.lock", "Cargo.lock", "go.sum",
   "requirements*.txt", "setup.py", "setup.cfg", "pyproject.toml",
   "Makefile", "makefile", "CMakeLists.txt", "Dockerfile*",
   "docker-compose*.yml", "docker-compose*.yaml",
   ".gitignore", ".gitattributes", ".gitmodules",
   ".eslintrc*", ".prettierrc*", ".editorconfig", ".babelrc*",
   "tsconfig*.json", "webpack*.js", "rollup*.js", "vite*.js",
   ".travis.yml", ".circleci*", "appveyor.yml", "azure-pipelines.yml",
   ".github/workflows/*", ".gitlab-ci.yml", "Jenkinsfile",
   ".vscode/*", ".idea/*", "*.sublime-*", ".vs/*",
   "LICENSE*", "COPYING*", "COPYRIGHT*", "NOTICE*",
   "DISCLAIMER*", "TERMS*", "PRIVACY*",
   "README*", "CHANGELOG*", "HISTORY*", "AUTHORS*", "CONTRIBUTORS*",
   "INSTALL*", "USAGE*", "TUTORIAL*", "GUIDE*", "FAQ*",
   "*.generated.*", "*.gen.*", "*_pb2.py", "*_pb2_grpc.py",
   "*.fixture.*", "*.mock.*", "test_data/*", "fixtures/*",
   "*.min.*", "*.bundle.*", "*.chunk.*"]

/-- `FileFilter._get_default_excluded_directories`. -/
def defaultExcludedDirectories : List String :=
  ["node_modules", "__pycache__", ".pytest_cache", ".tox", "venv", ".venv",
   "env", ".env", "virtualenv", "site-packages", "vendor", "third_party",
   "build", "dist", "out", "output", "target", "bin", "obj",
   ".next", ".nuxt", "public", "static", "assets",
   ".vscode", ".idea", ".vs", ".sublime-text", ".atom",
   ".git", ".svn", ".hg", ".bzr",
   ".DS_Store", "Thumbs.db",
   ".cache", "cache", ".tmp", "tmp", "temp",
   "_build", "docs/_build", "site", "_site",
   "test_data", "testdata", "fixtures", "samples",
   "generated", "gen", "auto", "autogen"]

/-- A `FileFilter` as built by `FileFilter.__init__`. -/
def defaultFileFilter : FileFilter :=
  { excluded_extensions := defaultExcludedExtensions
    excluded_patterns := defaultExcludedPatterns
    excluded_directories := defaultExcludedDirectories
    max_file_size_kb := 500 }

/-- `FileFilter._matches_excluded_pattern`. -/
def matchesExcludedPattern (ff : FileFilter) (filename : String) : Bool :=
  let filename_lower := pyLower filename
  ff.excluded_patterns.any (fun pattern =>
    if pyIn "*" pattern || pyIn "?" pattern then
      fnmatchList (pyLower pattern).data filename_lower.data
    else
      (filename_lower = pyLower pattern) ||
      (pyEnds "*" pattern &&
        pyStarts (pyLower ⟨pattern.data.dropLast⟩) filename_lower))

/-- `FileFilter._is_in_excluded_directory`; note the second check compares
`part[1:]` without lowercasing, as the source does. -/
def isInExcludedDirectory (ff : FileFilter) (path : String) : Bool :=
  (pyPathParts path).any (fun part =>
    ff.excluded_directories.contains (pyLower part) ||
    (pyStarts "." part && ff.excluded_directories.contains ⟨part.data.drop 1⟩))

/-- The directory / extension / pattern checks of
`FileFilter.should_parse_file` (everything after the size check). -/
def FileFilter.shouldParseRest (ff : FileFilter) (file_path : String) : Bool :=
  if isInExcludedDirectory ff file_path then false
  else if ff.excluded_extensions.contains (pyLower (pyPathSuffix file_path)) then false
  else if matchesExcludedPattern ff (pyPathName file_path) then false
  else if matchesExcludedPattern ff file_path then false
  else true

/-- `FileFilter.should_parse_file`.  `str(path)` is modelled as the input
string (the paths in scope are already in normal form). -/
def FileFilter.should_parse_file (ff : FileFilter) (file_path : String)
    (file_size_bytes : Option Nat := none) : Bool :=
  match file_size_bytes with
  | some sz =>
    if sz > ff.max_file_size_kb * 1024 then false
    else FileFilter.shouldParseRest ff file_path
  | none => FileFilter.shouldParseRest ff file_path

/-! ### Language registry (`parser.py`: `_initialize_language_configs`) -/

/-- `TreeSitterParser._initialize_language_configs` (dict in insertion order). -/
def languageConfigs : List (String × LanguageConfig) :=
  [("python",
    { language := "python", file_extensions := [".py", ".pyi"],
      tree_sitter_grammar := "python",
      supported_node_types := [.file, .class_, .function, .method, .variable_, .import_],
      complexity_enabled := true }),
   ("javascript",
    { language := "javascript", file_extensions := [".js", ".jsx", ".mjs"],
      tree_sitter_grammar := "javascript",
      supported_node_types := [.file, .class_, .function, .method, .variable_, .import_],
      complexity_enabled := true }),
   ("typescript",
    { language := "typescript", file_extensions := [".ts", ".tsx"],
      tree_sitter_grammar := "typescript",
      supported_node_types := [.file, .class_, .function, .method, .variable_, .import_, .interface],
      complexity_enabled := true }),
   ("java",
    { language := "java", file_extensions := [".java"],
      tree_sitter_grammar := "java",
      supported_node_types := [.file, .class_, .method, .variable_, .import_, .interface],
      complexity_enabled := true }),
   ("c",
    { language := "c", file_extensions := [".c", ".h"],
      tree_sitter_grammar := "c",
      supported_node_types := [.file, .function, .variable_],
      complexity_enabled := true }),
   ("cpp",
    { language := "cpp", file_extensions := [".cpp", ".cxx", ".cc", ".hpp", ".hxx"],
      tree_sitter_grammar := "cpp",
      supported_node_types := [.file, .class_, .function, .method, .variable_, .namespace_],
      complexity_enabled := true }),
   ("csharp",
    { language := "csharp", file_extensions := [".cs"],
      tree_sitter_grammar := "c_sharp",
      supported_node_types := [.file, .class_, .method, .variable_, .import_, .interface, .namespace_],
      complexity_enabled := true }),
   ("go",
    { language := "go", file_extensions := [".go"],
      tree_sitter_grammar := "go",
      supported_node_types := [.file, .function, .method, .variable_, .import_],
      complexity_enabled := true }),
   ("rust",
    { language := "rust", file_extensions := [".rs"],
      tree_sitter_grammar := "rust",
      supported_node_types := [.file, .function, .method, .variable_, .enum, .module],
      complexity_enabled := true }),
   ("php",
    { language := "php", file_extensions := [".php"],
      tree_sitter_grammar := "php",
      supported_node_types := [.file, .class_, .function, .method, .variable_],
      complexity_enabled := true }),
   ("ruby",
    { language := "ruby", file_extensions := [".rb"],
      tree_sitter_grammar := "ruby",
      supported_node_types := [.file, .class_, .method, .variable_, .module],
      complexity_enabled := true }),
   ("swift",
    { language := "swift", file_extensions := [".swift"],
      tree_sitter_grammar := "swift",
      supported_node_types := [.file, .class_, .function, .method, .variable_, .import_],
      complexity_enabled := true }),
   ("kotlin",
    { language := "kotlin", file_extensions := [".kt", ".kts"],
      tree_sitter_grammar := "kotlin",
      supported_node_types := [.file, .class_, .function, .method, .variable_, .import_],
      complexity_enabled := true }),
   ("scala",
    { language := "scala", file_extensions := [".scala"],
      tree_sitter_grammar := "scala",
      supported_node_types := [.file, .class_, .function, .method, .variable_, .import_],
      complexity_enabled := true }),
   ("haskell",
    { language := "haskell", file_extensions := [".hs"],
      tree_sitter_grammar := "haskell",
      supported_node_types := [.file, .function, .variable_, .module, .import_],
      complexity_enabled := true }),
   ("lua",
    { language := "lua", file_extensions := [".lua"],
      tree_sitter_grammar := "lua",
      supported_node_types := [.file, .function, .variable_],
      complexity_enabled := true }),
   ("perl",
    { language := "perl", file_extensions := [".pl", ".pm"],
      tree_sitter_grammar := "perl",
      supported_node_types := [.file, .function, .variable_],
      complexity_enabled := true }),
   ("r",
    { language := "r", file_extensions := [".r", ".R"],
      tree_sitter_grammar := "r",
      supported_node_types := [.file, .function, .variable_],
      complexity_enabled := true }),
   ("bash",
    { language := "bash", file_extensions := [".sh", ".bash"],
      tree_sitter_grammar := "bash",
      supported_node_types := [.file, .function, .variable_],
      complexity_enabled := false }),
   ("yaml",
    { language := "yaml", file_extensions := [".yml", ".yaml"],
      tree_sitter_grammar := "yaml",
      supported_node_types := [.file],
      complexity_enabled := false }),
   ("json",
    { language := "json", file_extensions := [".json"],
      tree_sitter_grammar := "json",
      supported_node_types := [.file],
      complexity_enabled := false })]

/-- `self.language_configs.get(language)`. -/
def getLanguageConfig (language : String) : Option LanguageConfig :=
  (languageConfigs.find? (fun kv => kv.1 = language)).map (fun kv => kv.2)

/-- `TreeSitterParser.detect_language`: lowercased-suffix lookup, first
matching registry entry in insertion order. -/
def detect_language (file_path : String) : Option String :=
  let file_ext := pyLower (pyPathSuffix file_path)
  (languageConfigs.find? (fun kv => kv.2.file_extensions.contains file_ext)).map
    (fun kv => kv.1)

/-! ### Complexity scoring (`parser.py`: `calculate_complexity_score`) -/

/-- The `complexity_keywords` table of `calculate_complexity_score`. -/
def complexityKeywords (language : String) : List String :=
  if language = "python" then
    ["if", "elif", "else", "for", "while", "try", "except", "with"]
  else if language = "javascript" then
    ["if", "else", "for", "while", "switch", "case", "try", "catch"]
  else if language = "typescript" then
    ["if", "else", "for", "while", "switch", "case", "try", "catch"]
  else if language = "java" then
    ["if", "else", "for", "while", "switch", "case", "try", "catch"]
  else if language = "csharp" then
    ["if", "else", "for", "while", "switch", "case", "try", "catch"]
  else if language = "go" then
    ["if", "else", "for", "switch", "case", "select"]
  else if language = "rust" then
    ["if", "else", "for", "while", "loop", "match"]
  else []

/-- `self.language_configs.get(language, LanguageConfig(...)).complexity_enabled`;
the fallback `LanguageConfig` keeps the field default `True`. -/
def complexityEnabledFor (language : String) : Bool :=
  ((getLanguageConfig language).map (fun cfg => cfg.complexity_enabled)).getD true

/-- `TreeSitterParser.calculate_complexity_score`. -/
def calculate_complexity_score (content language : String) : Nat :=
  if !(complexityEnabledFor language) then 1
  else
    let keywords := complexityKeywords language
    if keywords = [] then 1
    else
      let words := pySplitWs (pyLower content)
      let complexity := keywords.foldl (fun acc kw => acc + words.count kw) 1
      min (max (complexity / 5 + 1) 1) 10

/-- Stated from the spec's words (§4.C.i), for comparison with
`calculate_complexity_score`: start from base 1, add the count of the
language's control keywords among the whitespace-separated tokens of the
lowercased body, map via `min(10, max(1, count / 5 + 1))`; languages without
`complexity_enabled` score 1. -/
def specComplexityScore (content language : String) : Nat :=
  if complexityEnabledFor language then
    let count := 1 + ((complexityKeywords language).foldl
      (fun acc kw => acc + (pySplitWs (pyLower content)).count kw) 0)
    min 10 (max 1 (count / 5 + 1))
  else 1

/-! ### Parser-level filtering (`parser.py`: `should_parse_file`) -/

/-- The `common_code_extensions` fallback set in
`TreeSitterParser.should_parse_file`. -/
def commonCodeExtensions : List String :=
  [".py", ".js", ".ts", ".jsx", ".tsx", ".java", ".cpp", ".c", ".h", ".hpp",
   ".cs", ".php", ".rb", ".go", ".rs", ".swift", ".kt", ".scala", ".sh", ".pl"]

/-- The Python-priority branch of `TreeSitterParser.should_parse_file`
(everything after `if language == 'python':`). -/
def pythonPriorityDecision (file_path : String) (file_size_bytes : Option Nat) : Bool :=
  -- `if file_size_bytes and file_size_bytes > (500 * 1024)` (0 is falsy)
  if pyTruthyNat file_size_bytes && (file_size_bytes.getD 0 > 500 * 1024) then false
  else
    let path_str := pyLower file_path
    let path_parts := pyPathParts file_path
    let problematic_dirs := ["__pycache__", ".git", "node_modules", ".pytest_cache", "dist", "build"]
    if problematic_dirs.any (fun d =>
        pyIn ("/" ++ d ++ "/") path_str || pyEnds ("/" ++ d) path_str) then false
    else
      let filename := pyLower (pyPathName file_path)
      let high_priority_dirs := ["src", "lib", "app", "core", "main"]
      let has_high_priority_dir := path_parts.any (fun part => high_priority_dirs.contains (pyLower part))
      let is_root_level := path_parts.length ≤ 2
      let is_test_file :=
        pyIn "test" filename ||
        pyStarts "test_" filename ||
        pyEnds "_test.py" filename ||
        pyIn "conftest" filename ||
        path_parts.any (fun part => pyIn "test" (pyLower part)) ||
        path_parts.any (fun part =>
          ["tests", "testing", "examples", "example", "demo", "demos"].contains (pyLower part))
      if has_high_priority_dir && !is_test_file then true
      else if is_root_level && !is_test_file && !(pyStarts "_" filename) then true
      else if !is_test_file then true
      else false

/-- `TreeSitterParser.should_parse_file` (the parser instance holds a default
`FileFilter`). -/
def parserShouldParseFile (file_path : String) (file_size_bytes : Option Nat := none) : Bool :=
  let file_ext := pyLower (pyPathSuffix file_path)
  match detect_language file_path with
  | none =>
    if commonCodeExtensions.contains file_ext then
      defaultFileFilter.should_parse_file file_path file_size_bytes
    else false
  | some language =>
    if language = "python" then pythonPriorityDecision file_path file_size_bytes
    else defaultFileFilter.should_parse_file file_path file_size_bytes

/-! ### Object-oriented file parsing
(`parser.py`: `_parse_object_oriented_file`) -/

/-- The docstring continuation scan: the inner `while j < len(lines)` loop
of the multi-line docstring branch.  `acc` already holds the opening line
with the quote removed.  Structurally recursive on a fuel the caller
instantiates with `lines.length - j`. -/
def ooDocInnerGo (lines : List String) (quote : String) :
    Nat → List String → Nat → List String
  | 0, acc, _ => acc
  | fuel + 1, acc, j =>
    if j < lines.length then
      let doc_line := pyStrip (pyGetD lines j "")
      if pyIn quote doc_line then acc ++ [pyReplace quote "" doc_line]
      else ooDocInnerGo lines quote fuel (acc ++ [doc_line]) (j + 1)
    else acc

/-- The docstring scan of `_parse_object_oriented_file`: the
`while j < len(lines) and j < i + 10` loop following a `class`/`def` header
at index `i`, fueled with `i + 10 - j`. -/
def ooScanDocGo (lines : List String) (i : Nat) : Nat → Nat → Option String
  | 0, _ => none
  | fuel + 1, j =>
    if j < lines.length ∧ j < i + 10 then
      let next_line := pyStrip (pyGetD lines j "")
      if pyStarts "\"\"\"" next_line || pyStarts "'''" next_line then
        let quote := if pyStarts "\"\"\"" next_line then "\"\"\"" else "'''"
        if pyCountSub quote next_line ≥ 2 then
          some (pyStrip (pyReplace quote "" next_line))
        else
          some (pyStrip (pyJoin "\n"
            (ooDocInnerGo lines quote (lines.length - (j + 1))
              [pyReplace quote "" next_line] (j + 1))))
      else if next_line ≠ "" && !(pyStarts "#" next_line) then none
      else ooScanDocGo lines i fuel (j + 1)
    else none

/-- The docstring scan following a header at index `i`, starting at `j`. -/
def ooScanDoc (lines : List String) (i j : Nat) : Option String :=
  ooScanDocGo lines i (i + 10 - j) j

/-- The indentation-based body scan of `_parse_object_oriented_file`
(`limit` is 100 for classes, 50 for functions; the truncation marker is
appended after the limit is exceeded, as in the source), fueled with
`lines.length - j`. -/
def ooBodyGo (lines : List String) (indent_level limit : Nat) :
    Nat → List String → Nat → List String
  | 0, acc, _ => acc
  | fuel + 1, acc, j =>
    if j < lines.length then
      let current_line := pyGetD lines j ""
      let current_indent := pyIndent current_line
      if pyStrip current_line ≠ "" && current_indent ≤ indent_level then acc
      else
        let acc' := acc ++ [current_line]
        if acc'.length > limit then acc' ++ ["    # ... (truncated)"]
        else ooBodyGo lines indent_level limit fuel acc' (j + 1)
    else acc

/-- The body scan from line `j`, with header lines already in `acc`. -/
def ooBody (lines : List String) (indent_level limit : Nat) (acc : List String)
    (j : Nat) : List String :=
  ooBodyGo lines indent_level limit (lines.length - j) acc j

/-- The node and `contains` relationship appended by the `class` branch of
`_parse_object_oriented_file`'s main loop (the node draws uuid `supply`,
its relationship `supply + 1`).  The unguarded `line.split()[1]` is
modelled with `pyGetD`: the guard `startswith('class ') and ':' in line`
forces a colon after the first token, hence a second whitespace token, so
the default is never produced. -/
def ooClassPair (lines : List String) (file_path language : String)
    (repoId fileId : Nat) (i supply : Nat) : KGNode × KGRelationship :=
  let original_line := pyGetD lines i ""
  let line := pyStrip original_line
  let class_name := pyHeadD (pySplit ":" (pyHeadD (pySplit "(" (pyGetD (pySplitWs line) 1 ""))))
  let indent_level := pyIndent original_line
  let source_code := pyJoin "\n" (ooBody lines indent_level 100 [original_line] (i + 1))
  ({ id := supply, kg_repository_id := repoId, node_type := .class_,
     name := class_name,
     fully_qualified_name := some (file_path ++ "::" ++ class_name),
     file_path := file_path, line_start := some (i + 1),
     language := language,
     properties := [("visibility", .s "public")],
     source_code := some source_code, docstring := ooScanDoc lines i (i + 1),
     complexity_score := some (calculate_complexity_score source_code language),
     is_public := true },
   { id := supply + 1, source_node_id := fileId, target_node_id := supply,
     relationship_type := .contains, confidence_score := 1 })

/-- The node and `contains` relationship appended by the `def`/`function`
branch (a stripped line starting with `'def '` is strictly longer than the
prefix, so `line.split()[1]` exists in the Python case). -/
def ooFuncPair (lines : List String) (file_path language : String)
    (repoId fileId : Nat) (i supply : Nat) : KGNode × KGRelationship :=
  let original_line := pyGetD lines i ""
  let line := pyStrip original_line
  let func_name :=
    if language = "python" then
      pyHeadD (pySplit "(" (pyGetD (pySplitWs line) 1 ""))
    else
      if (pySplitWs line).length > 1 then
        pyHeadD (pySplit "(" (pyGetD (pySplitWs line) 1 ""))
      else "anonymous"
  let indent_level := pyIndent original_line
  let source_code := pyJoin "\n" (ooBody lines indent_level 50 [original_line] (i + 1))
  ({ id := supply, kg_repository_id := repoId, node_type := .function,
     name := func_name,
     fully_qualified_name := some (file_path ++ "::" ++ func_name),
     file_path := file_path, line_start := some (i + 1),
     language := language,
     properties :=
       [("parameters", .i (if pyIn "(" line then (pyCountChar line ',' : Int) + 1 else 0)),
        ("is_method", .b (pyIn "    def " original_line || pyIn "\tdef " original_line))],
     source_code := some source_code, docstring := ooScanDoc lines i (i + 1),
     complexity_score := some (calculate_complexity_score source_code language),
     is_public := !(pyStarts "_" func_name) },
   { id := supply + 1, source_node_id := fileId, target_node_id := supply,
     relationship_type := .contains, confidence_score := 1 })

/-- The node and `imports` relationship appended by the `import`/`from`
branch. -/
def ooImportPair (lines : List String) (file_path language : String)
    (repoId fileId : Nat) (i supply : Nat) : KGNode × KGRelationship :=
  let original_line := pyGetD lines i ""
  let line := pyStrip original_line
  let import_name :=
    if (pySplitWs line).length > 1 then pyGetD (pySplitWs line) 1 "" else "unknown"
  ({ id := supply, kg_repository_id := repoId, node_type := .import_,
     name := import_name,
     fully_qualified_name := some (file_path ++ "::" ++ import_name),
     file_path := file_path, line_start := some (i + 1),
     language := language,
     properties := [("import_type", .s "module")],
     source_code := some original_line, is_public := true },
   { id := supply + 1, source_node_id := fileId, target_node_id := supply,
     relationship_type := .imports, confidence_score := 1 })

/-- The main `while i < len(lines)` loop of `_parse_object_oriented_file`.
Each matched header appends one node and one relationship; `supply` is the
uuid4 supply.  Structurally recursive on a fuel instantiated with
`lines.length - i`. -/
def ooLoopGo (lines : List String) (file_path language : String)
    (repoId fileId : Nat) : Nat → Nat → Nat →
    List KGNode × List KGRelationship
  | 0, _, _ => ([], [])
  | fuel + 1, i, supply =>
    if i < lines.length then
      let line := pyStrip (pyGetD lines i "")
      if pyStarts "class " line && pyIn ":" line then
        let p := ooClassPair lines file_path language repoId fileId i supply
        let rest := ooLoopGo lines file_path language repoId fileId fuel (i + 1) (supply + 2)
        (p.1 :: rest.1, p.2 :: rest.2)
      else if pyStarts "def " line || pyStarts "function " line then
        let p := ooFuncPair lines file_path language repoId fileId i supply
        let rest := ooLoopGo lines file_path language repoId fileId fuel (i + 1) (supply + 2)
        (p.1 :: rest.1, p.2 :: rest.2)
      else if pyStarts "import " line || pyStarts "from " line then
        let p := ooImportPair lines file_path language repoId fileId i supply
        let rest := ooLoopGo lines file_path language repoId fileId fuel (i + 1) (supply + 2)
        (p.1 :: rest.1, p.2 :: rest.2)
      else ooLoopGo lines file_path language repoId fileId fuel (i + 1) supply
    else ([], [])

/-- The main loop from line index `i`. -/
def ooLoop (lines : List String) (file_path language : String)
    (repoId fileId : Nat) (i supply : Nat) :
    List KGNode × List KGRelationship :=
  ooLoopGo lines file_path language repoId fileId (lines.length - i) i supply

/-- The file node created at the top of `_parse_object_oriented_file` and
`_parse_procedural_file`. -/
def mkFileNode (content file_path language : String) (repoId supply : Nat) : KGNode :=
  { id := supply, kg_repository_id := repoId, node_type := .file,
    name := pyPathName file_path, fully_qualified_name := some file_path,
    file_path := file_path, language := language,
    properties := [("lines", .i (pySplitlines content).length)],
    source_code := some (if content.length > 2000 then pyTake content 2000 else content),
    is_public := true }

/-- `TreeSitterParser._parse_object_oriented_file`. -/
def parseOO (content file_path language : String) (repoId supply : Nat) :
    List KGNode × List KGRelationship :=
  let file_node := mkFileNode content file_path language repoId supply
  let lines := pySplit "\n" content
  let rest := ooLoop lines file_path language repoId file_node.id 0 (supply + 1)
  (file_node :: rest.1, rest.2)

/-! ### Procedural file parsing (`parser.py`: `_parse_procedural_file`) -/

/-- The brace-balancing body scan of `_parse_procedural_file`
(`while j < len(lines) and brace_count > 0`), fueled with
`lines.length - j`. -/
def procBodyGo (lines : List String) (limit : Nat) :
    Nat → List String → Int → Nat → List String
  | 0, acc, _, _ => acc
  | fuel + 1, acc, brace, j =>
    if j < lines.length ∧ brace > 0 then
      let current_line := pyGetD lines j ""
      let acc' := acc ++ [current_line]
      let brace' := brace + (pyCountChar current_line '{' : Int) - (pyCountChar current_line '}' : Int)
      if acc'.length > limit then acc' ++ ["    // ... (truncated)"]
      else procBodyGo lines limit fuel acc' brace' (j + 1)
    else acc

/-- The brace-balancing body scan from line `j`. -/
def procBody (lines : List String) (limit : Nat) (acc : List String)
    (brace : Int) (j : Nat) : List String :=
  procBodyGo lines limit (lines.length - j) acc brace j

/-- `s[0]` on a Python string: raises `IndexError` on the empty string. -/
def pyStrIdx0 (s : String) : Except PyErr Char :=
  match s.data with
  | [] => .error (.exception "IndexError" "string index out of range")
  | c :: _ => .ok c

/-- The main loop of `_parse_procedural_file`.  The Go branch indexes
`func_name[0]` without a guard, so a header like `func (r T) m()` raises
`IndexError`; the loop is therefore `Except`-valued. -/
def procLoopGo (lines : List String) (file_path language : String)
    (repoId fileId : Nat) : Nat → Nat → Nat →
    Except PyErr (List KGNode × List KGRelationship)
  | 0, _, _ => .ok ([], [])
  | fuel + 1, i, supply =>
    if i < lines.length then
    let original_line := pyGetD lines i ""
    let line := pyStrip original_line
    if language = "c" &&
        (["int ", "void ", "char ", "float ", "double ", "static "].any (fun p => pyStarts p line)) then
      let parts := pySplitWs line
      let fn? : Option (String × Option String) :=
        if pyHeadD parts = "static" ∧ parts.length > 2 then
          if pyIn "(" (pyGetD parts 2 "") then
            some (pyHeadD (pySplit "(" (pyGetD parts 2 "")), some (pyGetD parts 1 ""))
          else none
        else if parts.length > 1 ∧ pyIn "(" (pyGetD parts 1 "") then
          some (pyHeadD (pySplit "(" (pyGetD parts 1 "")), some (pyHeadD parts))
        else none
      match fn? with
      | some (func_name, return_type) =>
        if func_name ≠ "" then
          let brace := (pyCountChar line '{' : Int) - (pyCountChar line '}' : Int)
          let source_code := pyJoin "\n" (procBody lines 100 [original_line] brace (i + 1))
          let complexity_score := calculate_complexity_score source_code language
          let func_node : KGNode :=
            { id := supply, kg_repository_id := repoId, node_type := .function,
              name := func_name,
              fully_qualified_name := some (file_path ++ "::" ++ func_name),
              file_path := file_path, line_start := some (i + 1),
              language := language,
              properties :=
                [("return_type", .s (return_type.getD "")),
                 ("is_static", .b (pyIn "static" line))],
              source_code := some source_code,
              complexity_score := some complexity_score,
              is_public := !(pyStarts "static" line) }
          let rel : KGRelationship :=
            { id := supply + 1, source_node_id := fileId, target_node_id := supply,
              relationship_type := .contains, confidence_score := 1 }
          match procLoopGo lines file_path language repoId fileId fuel (i + 1) (supply + 2) with
          | .ok rest => .ok (func_node :: rest.1, rel :: rest.2)
          | .error e => .error e
        else procLoopGo lines file_path language repoId fileId fuel (i + 1) supply
      | none => procLoopGo lines file_path language repoId fileId fuel (i + 1) supply
    else if language = "go" && pyStarts "func " line then
      let parts := pySplitWs line
      if parts.length > 1 then
        let func_name := pyHeadD (pySplit "(" (pyGetD parts 1 ""))
        let brace := (pyCountChar line '{' : Int) - (pyCountChar line '}' : Int)
        let source_code := pyJoin "\n" (procBody lines 100 [original_line] brace (i + 1))
        let complexity_score := calculate_complexity_score source_code language
        match pyStrIdx0 func_name with
        | .error e => .error e
        | .ok c0 =>
          let func_node : KGNode :=
            { id := supply, kg_repository_id := repoId, node_type := .function,
              name := func_name,
              fully_qualified_name := some (file_path ++ "::" ++ func_name),
              file_path := file_path, line_start := some (i + 1),
              language := language,
              properties := [("visibility", .s (if c0.isUpper then "public" else "private"))],
              source_code := some source_code,
              complexity_score := some complexity_score,
              is_public := c0.isUpper }
          let rel : KGRelationship :=
            { id := supply + 1, source_node_id := fileId, target_node_id := supply,
              relationship_type := .contains, confidence_score := 1 }
          match procLoopGo lines file_path language repoId fileId fuel (i + 1) (supply + 2) with
          | .ok rest => .ok (func_node :: rest.1, rel :: rest.2)
          | .error e => .error e
      else procLoopGo lines file_path language repoId fileId fuel (i + 1) supply
    else if language = "rust" && (pyStarts "fn " line || pyStarts "pub fn " line) then
      let parts := pySplitWs line
      let is_public := pyStarts "pub fn " line
      let fn? : Option String :=
        if is_public ∧ parts.length > 2 then some (pyHeadD (pySplit "(" (pyGetD parts 2 "")))
        else if ¬ is_public ∧ parts.length > 1 then some (pyHeadD (pySplit "(" (pyGetD parts 1 "")))
        else none
      match fn? with
      | some func_name =>
        if func_name ≠ "" then
          let brace := (pyCountChar line '{' : Int) - (pyCountChar line '}' : Int)
          let source_code := pyJoin "\n" (procBody lines 100 [original_line] brace (i + 1))
          let complexity_score := calculate_complexity_score source_code language
          let func_node : KGNode :=
            { id := supply, kg_repository_id := repoId, node_type := .function,
              name := func_name,
              fully_qualified_name := some (file_path ++ "::" ++ func_name),
              file_path := file_path, line_start := some (i + 1),
              language := language,
              properties := [("visibility", .s (if is_public then "public" else "private"))],
              source_code := some source_code,
              complexity_score := some complexity_score,
              is_public := is_public }
          let rel : KGRelationship :=
            { id := supply + 1, source_node_id := fileId, target_node_id := supply,
              relationship_type := .contains, confidence_score := 1 }
          match procLoopGo lines file_path language repoId fileId fuel (i + 1) (supply + 2) with
          | .ok rest => .ok (func_node :: rest.1, rel :: rest.2)
          | .error e => .error e
        else procLoopGo lines file_path language repoId fileId fuel (i + 1) supply
      | none => procLoopGo lines file_path language repoId fileId fuel (i + 1) supply
    else if (language = "c" && pyStarts "#include" line) ||
            (language = "go" && pyStarts "import" line) ||
            (language = "rust" && pyStarts "use " line) then
      let raw := if (pySplitWs line).length > 1 then pyGetD (pySplitWs line) 1 "" else "unknown"
      let import_name :=
        if language = "c" then pyReplace "\"" "" (pyReplace ">" "" (pyReplace "<" "" raw))
        else if language = "rust" then pyReplace ";" "" raw
        else raw
      let import_node : KGNode :=
        { id := supply, kg_repository_id := repoId, node_type := .import_,
          name := import_name,
          fully_qualified_name := some (file_path ++ "::" ++ import_name),
          file_path := file_path, line_start := some (i + 1),
          language := language,
          properties :=
            [("import_type", .s (if language = "c" ∧ pyIn "<" original_line then "system" else "local"))],
          source_code := some original_line, is_public := true }
      let rel : KGRelationship :=
        { id := supply + 1, source_node_id := fileId, target_node_id := supply,
          relationship_type := .imports, confidence_score := 1 }
      match procLoopGo lines file_path language repoId fileId fuel (i + 1) (supply + 2) with
      | .ok rest => .ok (import_node :: rest.1, rel :: rest.2)
      | .error e => .error e
    else procLoopGo lines file_path language repoId fileId fuel (i + 1) supply
    else .ok ([], [])

/-- The main loop of `_parse_procedural_file` from line index `i`. -/
def procLoop (lines : List String) (file_path language : String)
    (repoId fileId : Nat) (i supply : Nat) :
    Except PyErr (List KGNode × List KGRelationship) :=
  procLoopGo lines file_path language repoId fileId (lines.length - i) i supply

/-- `TreeSitterParser._parse_procedural_file`. -/
def parseProc (content file_path language : String) (repoId supply : Nat) :
    Except PyErr (List KGNode × List KGRelationship) :=
  let file_node := mkFileNode content file_path language repoId supply
  let lines := pySplit "\n" content
  match procLoop lines file_path language repoId file_node.id 0 (supply + 1) with
  | .ok rest => .ok (file_node :: rest.1, rest.2)
  | .error e => .error e

/-! ### Basic file parsing (`parser.py`: `_parse_basic_file`) -/

/-- The per-line loop of `_parse_basic_file`.  The key check
`not line.startswith(' ')` is performed on the already-stripped `line`,
as in the source. -/
def basicLoopGo (lines : List String) (file_path language : String)
    (repoId fileId : Nat) : Nat → Nat → Nat →
    List KGNode × List KGRelationship
  | 0, _, _ => ([], [])
  | fuel + 1, i, supply =>
    if i < lines.length then
    let original_line := pyGetD lines i ""
    let line := pyStrip original_line
    if ["json", "yaml", "yml", "toml"].contains language then
      if pyIn ":" line && !(pyStarts "#" line) && !(pyStarts "//" line) then
        let key := pyReplace "'" "" (pyReplace "\"" "" (pyStrip (pyHeadD (pySplit ":" line))))
        if key ≠ "" && !(pyStarts " " line) && !(pyStarts "\t" line) then
          let config_node : KGNode :=
            { id := supply, kg_repository_id := repoId, node_type := .variable_,
              name := key,
              fully_qualified_name := some (file_path ++ "::" ++ key),
              file_path := file_path, line_start := some (i + 1),
              language := language,
              properties := [("config_type", .s "key"), ("section", .s "root")],
              source_code := some (pyStrip original_line), is_public := true }
          let rel : KGRelationship :=
            { id := supply + 1, source_node_id := fileId, target_node_id := supply,
              relationship_type := .contains, confidence_score := 1 }
          let rest := basicLoopGo lines file_path language repoId fileId fuel (i + 1) (supply + 2)
          (config_node :: rest.1, rel :: rest.2)
        else basicLoopGo lines file_path language repoId fileId fuel (i + 1) supply
      else basicLoopGo lines file_path language repoId fileId fuel (i + 1) supply
    else if language = "ini" then
      if pyStarts "[" line && pyEnds "]" line then
        let section_name : String := ⟨(line.data.drop 1).dropLast⟩
        let section_node : KGNode :=
          { id := supply, kg_repository_id := repoId, node_type := .variable_,
            name := section_name,
            fully_qualified_name := some (file_path ++ "::" ++ section_name),
            file_path := file_path, line_start := some (i + 1),
            language := language,
            properties := [("config_type", .s "section")],
            source_code := some (pyStrip original_line), is_public := true }
        let rel : KGRelationship :=
          { id := supply + 1, source_node_id := fileId, target_node_id := supply,
            relationship_type := .contains, confidence_score := 1 }
        let rest := basicLoopGo lines file_path language repoId fileId fuel (i + 1) (supply + 2)
        (section_node :: rest.1, rel :: rest.2)
      else basicLoopGo lines file_path language repoId fileId fuel (i + 1) supply
    else basicLoopGo lines file_path language repoId fileId fuel (i + 1) supply
    else ([], [])

/-- The per-line loop of `_parse_basic_file` from line index `i`. -/
def basicLoop (lines : List String) (file_path language : String)
    (repoId fileId : Nat) (i supply : Nat) :
    List KGNode × List KGRelationship :=
  basicLoopGo lines file_path language repoId fileId (lines.length - i) i supply

/-- `TreeSitterParser._parse_basic_file`. -/
def parseBasic (content file_path language : String) (repoId supply : Nat) :
    List KGNode × List KGRelationship :=
  let file_node : KGNode :=
    { id := supply, kg_repository_id := repoId, node_type := .file,
      name := pyPathName file_path, fully_qualified_name := some file_path,
      file_path := file_path, language := language,
      properties :=
        [("lines", .i (pySplitlines content).length),
         ("size_bytes", .i (content.utf8ByteSize : Int)),
         ("file_type", .s (if [".json", ".yaml", ".yml", ".toml", ".ini", ".cfg"].any
              (fun e => pyEnds e file_path) then "configuration" else "other"))],
      source_code := some (if content.length > 1000 then pyTake content 1000 else content),
      complexity_score := some 1, is_public := true }
  let lines := pySplit "\n" content
  let rest := basicLoop lines file_path language repoId file_node.id 0 (supply + 1)
  (file_node :: rest.1, rest.2)

/-! ### `parse_file` (`parser.py`) -/

/-- The per-language dispatch inside `parse_file`'s `try` block. -/
def parseDispatch (language file_path content : String) (repoId supply : Nat) :
    Except PyErr (List KGNode × List KGRelationship) :=
  if ["python", "javascript", "typescript", "java", "csharp"].contains language then
    .ok (parseOO content file_path language repoId supply)
  else if ["c", "go", "rust"].contains language then
    parseProc content file_path language repoId supply
  else
    .ok (parseBasic content file_path language repoId supply)

/-- The `UnboundLocalError` raised inside `parse_file`'s `except Exception`
handler when `language` was never assigned. -/
def unboundLanguageError : PyErr :=
  .exception "UnboundLocalError"
    "cannot access local variable 'language' where it is not associated with a value"

/-- `TreeSitterParser.parse_file`.  `cancel` is the outcome of the initial
cancellation probe (line 460); an `Exception` raised there reaches the
`except Exception` handler before `language` is assigned, so the handler's
`language or "unknown"` raises `UnboundLocalError`, while a
`CancelledError` is not caught at all and propagates unchanged.  An
`Exception` raised by the per-language parsing (after `language` is bound)
is converted to a failed `FileParseResult` with `str(e)` and empty lists. -/
def parse_file (file_path content : String) (repoId supply : Nat)
    (cancel : Option PyErr := none) :
    Except PyErr (List KGNode × List KGRelationship × FileParseResult) :=
  match cancel with
  | some e => if e.isException then .error unboundLanguageError else .error e
  | none =>
    match detect_language file_path with
    | none =>
      .ok ([], [],
        { file_path := file_path, language := "unknown", success := false,
          nodes_extracted := 0, relationships_extracted := 0,
          parse_time_ms := 0, error := some "Unsupported file type" })
    | some language =>
      match parseDispatch language file_path content repoId supply with
      | .ok (nodes, relationships) =>
        .ok (nodes, relationships,
          { file_path := file_path, language := language, success := true,
            nodes_extracted := nodes.length,
            relationships_extracted := relationships.length,
            parse_time_ms := 0, error := none })
      | .error e =>
        if e.isException then
          .ok ([], [],
            { file_path := file_path, language := language, success := false,
              nodes_extracted := 0, relationships_extracted := 0,
              parse_time_ms := 0, error := some e.str })
        else .error e

/-! ### Regex matchers for the Python pattern group
(`graph_builder.py`: `_initialize_relationship_patterns`)

Each `re.finditer` call is embedded by a hand-rolled matcher for its
pattern.  The patterns use only `\w+`, `\s`-classes, literals, a group and
(for the dotted-name inheritance pattern) `(?:\.\w+)*`, so greedy maximal
runs reproduce the backtracking engine exactly: shortening a maximal `\w+`
(or `\s+`) run leaves the next character in the same class, which can never
match the following literal.  `reScan` reproduces `finditer`'s
leftmost, non-overlapping scan. -/

/-- Python's `\w` over ASCII text. -/
def isWordChar (c : Char) : Bool := c.isAlphanum || c = '_'

/-- Length of the maximal run of `pred`-characters starting at `p`. -/
def runLen (pred : Char → Bool) (s : List Char) (p : Nat) : Nat :=
  ((s.drop p).takeWhile pred).length

/-- The slice `s[p : p + n]` as a string. -/
def sliceStr (s : List Char) (p n : Nat) : String := ⟨(s.drop p).take n⟩

/-- Attempt `(\w+)\s*\(` at position `p`; on success returns the position
after the match and `group(1)`. -/
def tryCalls1 (s : List Char) (p : Nat) : Option (Nat × String) :=
  let w := runLen isWordChar s p
  if w = 0 then none
  else
    let q := p + w + runLen pyIsSpace s (p + w)
    if s.get? q = some '(' then some (q + 1, sliceStr s p w) else none

/-- Attempt `\.(\w+)\s*\(` at position `p`. -/
def tryCalls2 (s : List Char) (p : Nat) : Option (Nat × String) :=
  if s.get? p = some '.' then
    let w := runLen isWordChar s (p + 1)
    if w = 0 then none
    else
      let q := p + 1 + w + runLen pyIsSpace s (p + 1 + w)
      if s.get? q = some '(' then some (q + 1, sliceStr s (p + 1) w) else none
  else none

/-- Attempt `(\w+)\.(\w+)\s*\(` at position `p`; `group(1)` is returned. -/
def tryCalls3 (s : List Char) (p : Nat) : Option (Nat × String) :=
  let w1 := runLen isWordChar s p
  if w1 = 0 then none
  else if s.get? (p + w1) = some '.' then
    let w2 := runLen isWordChar s (p + w1 + 1)
    if w2 = 0 then none
    else
      let q := p + w1 + 1 + w2 + runLen pyIsSpace s (p + w1 + 1 + w2)
      if s.get? q = some '(' then some (q + 1, sliceStr s p w1) else none
  else none

/-- Shared front of the two inheritance patterns:
`class\s+\w+\s*\(\s*` from position `p`; returns the position after it. -/
def tryClassHead (s : List Char) (p : Nat) : Option Nat :=
  if "class".data.isPrefixOf (s.drop p) then
    let sp := runLen pyIsSpace s (p + 5)
    if sp = 0 then none
    else
      let w := runLen isWordChar s (p + 5 + sp)
      if w = 0 then none
      else
        let q := p + 5 + sp + w + runLen pyIsSpace s (p + 5 + sp + w)
        if s.get? q = some '(' then some (q + 1 + runLen pyIsSpace s (q + 1)) else none
  else none

/-- Attempt `class\s+\w+\s*\(\s*(\w+)` at position `p`. -/
def tryInherits1 (s : List Char) (p : Nat) : Option (Nat × String) :=
  match tryClassHead s p with
  | none => none
  | some q =>
    let w := runLen isWordChar s q
    if w = 0 then none else some (q + w, sliceStr s q w)

/-- The `(?:\.\w+)*` extension of the dotted-name group, fueled with
`s.length - cur`. -/
def dotWordExtGo (s : List Char) : Nat → Nat → List Char → Nat × List Char
  | 0, cur, acc => (cur, acc)
  | fuel + 1, cur, acc =>
    if s.get? cur = some '.' then
      let w := runLen isWordChar s (cur + 1)
      if w = 0 then (cur, acc)
      else dotWordExtGo s fuel (cur + 1 + w) (acc ++ '.' :: ((s.drop (cur + 1)).take w))
    else (cur, acc)

/-- The `(?:\.\w+)*` extension of the dotted-name group. -/
def dotWordExt (s : List Char) (cur : Nat) (acc : List Char) : Nat × List Char :=
  dotWordExtGo s (s.length - cur) cur acc

/-- Attempt `class\s+\w+\s*\(\s*(\w+(?:\.\w+)*)` at position `p`. -/
def tryInherits2 (s : List Char) (p : Nat) : Option (Nat × String) :=
  match tryClassHead s p with
  | none => none
  | some q =>
    let w := runLen isWordChar s q
    if w = 0 then none
    else
      let ext := dotWordExt s (q + w) ((s.drop q).take w)
      some (ext.1, ⟨ext.2⟩)

/-- `re.finditer`: leftmost matches, continuing after each match;
structurally recursive on a fuel instantiated with `s.length - p` (the scan
position advances by at least one each step). -/
def reScanGo (tryAt : List Char → Nat → Option (Nat × String)) (s : List Char) :
    Nat → Nat → List (Nat × String)
  | 0, _ => []
  | fuel + 1, p =>
    if p < s.length then
      match tryAt s p with
      | some m => (p, m.2) :: reScanGo tryAt s fuel (max m.1 (p + 1))
      | none => reScanGo tryAt s fuel (p + 1)
    else []

/-- `re.finditer` over the whole text. -/
def reScan (tryAt : List Char → Nat → Option (Nat × String)) (s : List Char)
    (p : Nat) : List (Nat × String) :=
  reScanGo tryAt s (s.length - p) p

/-- `relationship_patterns["python"]["calls"]`, each regex paired with its
matcher. -/
def pythonCallsFinders : List (String × (List Char → Nat → Option (Nat × String))) :=
  [("(\\w+)\\s*\\(", tryCalls1),
   ("\\.(\\w+)\\s*\\(", tryCalls2),
   ("(\\w+)\\.(\\w+)\\s*\\(", tryCalls3)]

/-- `relationship_patterns["python"]["inherits"]`. -/
def pythonInheritsFinders : List (String × (List Char → Nat → Option (Nat × String))) :=
  [("class\\s+\\w+\\s*\\(\\s*(\\w+)", tryInherits1),
   ("class\\s+\\w+\\s*\\(\\s*(\\w+(?:\\.\\w+)*)", tryInherits2)]

/-! ### Graph builder (`graph_builder.py`) -/

/-- `content[:match.start()].count('\n') + 1`. -/
def lineOfPos (s : List Char) (pos : Nat) : Nat := (s.take pos).count '\n' + 1

/-- Python `max(candidates, key=...)`: the first maximal element. -/
def maxByFirst {α : Type} (key : α → Nat) : List α → Option α :=
  List.foldl
    (fun best n =>
      match best with
      | none => some n
      | some b => if key n > key b then some n else some b)
    none

/-- Python `min(candidates, key=...)`: the first minimal element. -/
def minByFirst {α : Type} (key : α → Int) : List α → Option α :=
  List.foldl
    (fun best n =>
      match best with
      | none => some n
      | some b => if key n < key b then some n else some b)
    none

/-- `GraphBuilder._find_node_at_line`. -/
def findNodeAtLine (nodes : List KGNode) (line_num : Nat) : Option KGNode :=
  let candidates := nodes.filter (fun n =>
    (pyTruthyNat n.line_start && pyTruthyNat n.line_end &&
      decide (n.line_start.getD 0 ≤ line_num) && decide (line_num ≤ n.line_end.getD 0)) ||
    (pyTruthyNat n.line_start && decide (n.line_start.getD 0 ≤ line_num)))
  maxByFirst (fun n => n.line_start.getD 0) candidates

/-- `GraphBuilder._find_parent_node`. -/
def findParentNode (node : KGNode) (all_nodes : List KGNode) : Option KGNode :=
  if !(pyTruthyNat node.line_start) then none
  else
    let candidates := all_nodes.filter (fun c =>
      decide (c.id ≠ node.id) && pyTruthyNat c.line_start && pyTruthyNat c.line_end &&
      decide (c.line_start.getD 0 < node.line_start.getD 0) &&
      decide (c.line_end.getD 0 > pyOrNat node.line_end node.line_start))
    minByFirst (fun c => (c.line_end.getD 0 : Int) - (c.line_start.getD 0 : Int)) candidates

/-- `{node.name: node for node in file_nodes}.get(name)`: the last node with
that name. -/
def dictLastByName (ns : List KGNode) (name : String) : Option KGNode :=
  (ns.filter (fun n => n.name = name)).getLast?

/-- The `calls` pass of `_build_intra_file_relationships` (Python patterns). -/
def intraCalls (file_nodes : List KGNode) (s : List Char) : List KGRelationship :=
  pythonCallsFinders.foldl
    (fun acc pf =>
      acc ++ (reScan pf.2 s 0).filterMap (fun m =>
        let line_num := lineOfPos s m.1
        match findNodeAtLine file_nodes line_num, dictLastByName file_nodes m.2 with
        | some caller, some callee =>
          if caller.id ≠ callee.id then
            some { id := 0, source_node_id := caller.id, target_node_id := callee.id,
                   relationship_type := .calls, confidence_score := mkRat 8 10,
                   context_info := [("line", .i line_num), ("pattern", .s pf.1)] }
          else none
        | _, _ => none))
    []

/-- The `inherits` pass of `_build_intra_file_relationships`
(Python patterns; Python has no `implements` group). -/
def intraInherits (file_nodes : List KGNode) (s : List Char) : List KGRelationship :=
  pythonInheritsFinders.foldl
    (fun acc pf =>
      acc ++ (reScan pf.2 s 0).filterMap (fun m =>
        let line_num := lineOfPos s m.1
        match findNodeAtLine file_nodes line_num, dictLastByName file_nodes m.2 with
        | some child, some parent =>
          if child.node_type = .class_ then
            some { id := 0, source_node_id := child.id, target_node_id := parent.id,
                   relationship_type := .inherits, confidence_score := mkRat 9 10,
                   context_info := [("line", .i line_num), ("pattern", .s pf.1)] }
          else none
        | _, _ => none))
    []

/-- `GraphBuilder._build_intra_file_relationships`.  Only the Python pattern
group is embedded; no claim in scope runs the intra-file pass over non-Python
nodes (either the node list is empty or all nodes are Python). -/
def buildIntraFile (file_nodes : List KGNode) (content : String)
    (language : String) : List KGRelationship :=
  if language = "python" then
    intraCalls file_nodes content.data ++ intraInherits file_nodes content.data
  else []

/-- Insertion-order dict of lists, `defaultdict(list)` with appends. -/
def assocAppend : List (String × List KGNode) → String → KGNode → List (String × List KGNode)
  | [], k, v => [(k, [v])]
  | (k', vs) :: rest, k, v =>
    if k' = k then (k', vs ++ [v]) :: rest else (k', vs) :: assocAppend rest k v

/-- `nodes_by_file` grouping (insertion order of both keys and values). -/
def nodesByFile (nodes : List KGNode) : List (String × List KGNode) :=
  nodes.foldl (fun acc n => assocAppend acc n.file_path n) []

/-- `GraphBuilder._build_cross_file_relationships`. -/
def crossFile (all_nodes : List KGNode) (file_contents : List (String × String)) :
    List KGRelationship :=
  let import_nodes := all_nodes.filter (fun n => n.node_type = .import_)
  let importRels := import_nodes.filterMap (fun imp =>
    (all_nodes.find? (fun n =>
      (n.node_type = .file || n.node_type = .module) &&
      (n.name = imp.name || pyIn imp.name n.file_path))).map (fun n =>
      ({ id := 0, source_node_id := imp.id, target_node_id := n.id,
         relationship_type := .imports, confidence_score := mkRat 7 10,
         context_info := [("cross_file", .b true)] } : KGRelationship)))
  let usesRels := file_contents.foldl
    (fun acc fc =>
      let file_nodes := all_nodes.filter (fun n => n.file_path = fc.1)
      if file_nodes.isEmpty then acc
      else
        acc ++ all_nodes.filterMap (fun n =>
          if n.file_path ≠ fc.1 ∧ pyIn n.name fc.2 then
            -- scan the lines; the `break` sits inside `if referencer:`, so the
            -- scan continues past lines whose hosting node cannot be resolved
            let lines := pySplit "\n" fc.2
            match (List.range lines.length).findSome? (fun k =>
              if pyIn n.name (pyGetD lines k "") then
                match findNodeAtLine file_nodes (k + 1) with
                | some referencer => some (k + 1, referencer)
                | none => none
              else none) with
            | some m =>
              some { id := 0, source_node_id := m.2.id, target_node_id := n.id,
                     relationship_type := .uses, confidence_score := mkRat 6 10,
                     context_info :=
                       [("cross_file", .b true), ("line", .i (m.1 : Int)),
                        ("reference_type", .s "name_match")] }
            | none => none
          else none))
    []
  importRels ++ usesRels

/-- `non_file_nodes.sort(key=lambda x: x.line_start or 0)`: Python's stable
sort, realised as a stable insertion sort. -/
def sortByLineStart (ns : List KGNode) : List KGNode :=
  List.insertionSort (fun a b => a.line_start.getD 0 ≤ b.line_start.getD 0) ns

/-- `GraphBuilder._build_containment_relationships`. -/
def buildContainment (nodes : List KGNode) : List KGRelationship :=
  (nodesByFile nodes).foldl
    (fun acc fp_ns =>
      match fp_ns.2.find? (fun n => n.node_type = .file) with
      | none => acc
      | some file_node =>
        let non_file_nodes := sortByLineStart (fp_ns.2.filter (fun n => n.node_type ≠ .file))
        acc ++ non_file_nodes.map (fun n =>
          match findParentNode n non_file_nodes with
          | some parent =>
            { id := 0, source_node_id := parent.id, target_node_id := n.id,
              relationship_type := .contains, confidence_score := 1,
              context_info := [("containment_type", .s "hierarchical")] }
          | none =>
            { id := 0, source_node_id := file_node.id, target_node_id := n.id,
              relationship_type := .contains, confidence_score := 1,
              context_info := [("containment_type", .s "file_level")] }))
    []

/-- `GraphBuilder.build_relationships`: intra-file pass per file (language
taken from the first non-file node, skipping empty contents and files with
no detectable language), then the cross-file pass, then containment. -/
def build_relationships (nodes : List KGNode)
    (file_contents : List (String × String)) : List KGRelationship :=
  let intra := (nodesByFile nodes).foldl
    (fun acc fp_ns =>
      let content := ((file_contents.find? (fun kv => kv.1 = fp_ns.1)).map
        (fun kv => kv.2)).getD ""
      if content = "" then acc
      else
        match fp_ns.2.find? (fun n => n.node_type ≠ .file) with
        | none => acc
        | some first_non_file =>
          if first_non_file.language = "" then acc
          else acc ++ buildIntraFile fp_ns.2 content first_non_file.language)
    []
  intra ++ crossFile nodes file_contents ++ buildContainment nodes

/-! ### Cycle detection (`graph_builder.py`: `_detect_cycles`)

The dependency graph is `defaultdict(set)`; Python's set iteration order
for strings is unspecified (hash-randomised), so the embedding takes the
graph as an adjacency list whose neighbour order stands for the set's
iteration order. -/

/-- Dependency graph: keys in insertion order, neighbours in set-iteration
order. -/
abbrev DepGraph := List (String × List String)

/-- `graph.get(node, set())`. -/
def neighborsOf (g : DepGraph) (node : String) : List String :=
  ((g.find? (fun kv => kv.1 = node)).map (fun kv => kv.2)).getD []

/-- One edge of the dependency graph. -/
def depStep (g : DepGraph) (a b : String) : Prop := b ∈ neighborsOf g a

/-- The recursive `dfs` of `_detect_cycles`, state-passing:
`(visited, cycles)` thread through; `rec_stack` and `path` are restored on
return, so they are plain parameters (they always hold the same elements).
`fuel` only bounds the recursion depth; the fuel chosen by `detectCycles`
is never exhausted because each recursive call first adds an unvisited node
to `visited`. -/
def dfsDetect (g : DepGraph) : Nat → String → List String → List String →
    List String × List (List String) → List String × List (List String)
  | 0, _, _, _, acc => acc
  | fuel + 1, node, path, recStack, (visited, cycles) =>
    if recStack.contains node then
      (visited, cycles ++ [path.drop (path.findIdx (fun x => x = node)) ++ [node]])
    else if visited.contains node then (visited, cycles)
    else
      (neighborsOf g node).foldl
        (fun acc nb => dfsDetect g fuel nb (path ++ [node]) (recStack ++ [node]) acc)
        (visited ++ [node], cycles)

/-- `GraphBuilder._detect_cycles`. -/
def detectCycles (g : DepGraph) : List (List String) :=
  let fuel := g.length + g.foldl (fun a kv => a + kv.2.length) 0 + 1
  (g.foldl
    (fun acc kv => if acc.1.contains kv.1 then acc else dfsDetect g fuel kv.1 [] [] acc)
    ([], [])).2

/-! ### Query engine (`knowledge_graph_service.py`: `query_graph`)

The store is modelled as lists of node and relationship rows; the supabase
combinators `eq` / `in_` / `limit` / `or_` become the corresponding row
filters, applied in the order the source chains them. -/

/-- A row of `archon_kg_nodes` (the columns `query_graph` reads). -/
structure NodeRow where
  id : String
  kg_repository_id : String
  node_type : String
  language : String
deriving DecidableEq

/-- A row of `archon_kg_relationships` (the columns `query_graph` reads). -/
structure RelRow where
  id : String
  source_node_id : String
  target_node_id : String
  relationship_type : String
deriving DecidableEq

/-- The persisted store. -/
structure KGStore where
  nodes : List NodeRow
  rels : List RelRow

/-- `GraphQuery` (models.py), over row-level values. -/
structure GraphQueryM where
  repository_id : String
  start_node_id : Option String := none
  end_node_id : Option String := none
  relationship_types : List String := []
  max_depth : Nat := 3
  node_types : Option (List String) := none
  language_filter : Option String := none

/-- Batches of ≤ 50 node ids (`node_ids[i:i + batch_size]`). -/
def chunksOfGo (n : Nat) : Nat → List α → List (List α)
  | 0, _ => []
  | fuel + 1, l =>
    if l.length = 0 ∨ n = 0 then []
    else l.take n :: chunksOfGo n fuel (l.drop n)

/-- Batches of `≤ n` elements. -/
def chunksOf (n : Nat) (l : List α) : List (List α) :=
  chunksOfGo n l.length l

/-- The `seen_rel_ids` dedup loop of `query_graph`. -/
def dedupById (rels : List RelRow) : List RelRow :=
  (rels.foldl
    (fun (acc : List String × List RelRow) rel =>
      if acc.1.contains rel.id then acc else (acc.1 ++ [rel.id], acc.2 ++ [rel]))
    ([], [])).2

/-- The result envelope of `query_graph` (the fields the claims read). -/
structure QueryGraphResult where
  nodes : List NodeRow
  relationships : List RelRow
  total_nodes : Nat
  total_relationships : Nat
deriving DecidableEq

/-- The node-selection chain of `query_graph` (lines 403–416): restrict to
the repository, then apply the node-type filter (`if query.node_types:` —
`None` and `[]` are both falsy), then the language filter
(`if query.language_filter:` — `None` and `""` are both falsy). -/
def queryNodesSelect (store : KGStore) (q : GraphQueryM) : List NodeRow :=
  let n1 := store.nodes.filter (fun n => n.kg_repository_id = q.repository_id)
  let n2 := match q.node_types with
    | some ts => if ts ≠ [] then n1.filter (fun (n : NodeRow) => ts.contains n.node_type) else n1
    | none => n1
  match q.language_filter with
  | some lf => if lf ≠ "" then n2.filter (fun (n : NodeRow) => n.language = lf) else n2
  | none => n2

/-- `KnowledgeGraphService.query_graph`.  `_apply_path_filtering` is the
source's pass-through and is inlined as the identity. -/
def query_graph (store : KGStore) (q : GraphQueryM) : QueryGraphResult :=
  let nodes := (queryNodesSelect store q).take 1000
  let relationships :=
    if nodes.isEmpty then []
    else
      let node_ids := nodes.map (fun n => n.id)
      let gathered := (chunksOf 50 node_ids).foldl
        (fun acc batch =>
          let br := store.rels.filter (fun r =>
            batch.contains r.source_node_id || batch.contains r.target_node_id)
          let br :=
            if q.relationship_types ≠ [] then
              br.filter (fun r => q.relationship_types.contains r.relationship_type)
            else br
          acc ++ br)
        []
      let uniq := dedupById gathered
      uniq.filter (fun r =>
        node_ids.contains r.source_node_id && node_ids.contains r.target_node_id)
  { nodes := nodes, relationships := relationships,
    total_nodes := nodes.length, total_relationships := relationships.length }

/-! ### Orchestrator control flow
(`knowledge_graph_service.py`: `parse_repository`)

The job is modelled as a trace of the externally visible effects the claims
speak about: progress events emitted on the progress channel and updates of
the Source row's `parsing_status`/`parsing_error`.  Store inserts are
modelled as succeeding; `files` plays the filtered `file_contents` dict.
Cancellation is modelled by the index of the cooperative probe at which
`CancelledError` is raised: probe `i < files.length` is the probe at the
start of file `i`'s `parse_file` call (probes deeper inside the parser
propagate identically, since `except Exception` does not catch
`CancelledError`), and probe `files.length` is the first probe inside the
cross-file `build_relationships` call (whose `except Exception` wrapper
likewise lets `CancelledError` through). -/

/-- Externally visible effects of a parse job. -/
inductive JobEffect where
  | progressEvent (status : ParsingStatus)
  | sourceStatusUpdate (status : ParsingStatus) (error : Option String)
deriving DecidableEq

/-- Outcome of a modelled parse job. -/
structure JobRun where
  trace : List JobEffect
  success : Bool
  cross_rels_added : Nat
deriving DecidableEq

/-- The streaming parse-and-store loop (`for file_path, content in
file_contents.items()`).  Returns the events it appended and whether a
`CancelledError` escaped the loop. -/
def streamLoop (repoId : Nat) (cancelAt : Option Nat) (total : Nat) :
    List (String × String) → Nat → Nat → List JobEffect → List JobEffect × Bool
  | [], _, _, acc => (acc, false)
  | (fp, content) :: rest, idx, processed, acc =>
    let cancel : Option PyErr :=
      if cancelAt = some idx then some (.cancelled "Parsing was cancelled") else none
    match parse_file fp content repoId 0 cancel with
    | .error e =>
      if e.isException then
        -- `except Exception as e: ...; processed_files += 1; continue`
        streamLoop repoId cancelAt total rest (idx + 1) (processed + 1) acc
      else (acc, true)
    | .ok _ =>
      let processed' := processed + 1
      let acc' :=
        if processed' % 5 = 0 ∨ processed' = total then
          acc ++ [.progressEvent .processing]
        else acc
      streamLoop repoId cancelAt total rest (idx + 1) processed' acc'

/-- `KnowledgeGraphService.parse_repository`, reduced to its effect trace.
The `except asyncio.CancelledError` handler marks the Source `failed` with
`"Parsing was cancelled by user"` and returns without emitting further
progress events. -/
def serviceParseRepository (files : List (String × String))
    (cancelAt : Option Nat := none) : JobRun :=
  let ev0 : List JobEffect := [.progressEvent .processing]  -- initial progress
  if files.isEmpty then
    { trace := ev0 ++ [.sourceStatusUpdate .failed (some "No parseable files found")],
      success := false, cross_rels_added := 0 }
  else
    let streamed := streamLoop 0 cancelAt files.length files 0 0 ev0
    if streamed.2 then
      { trace := streamed.1 ++
          [.sourceStatusUpdate .failed (some "Parsing was cancelled by user")],
        success := false, cross_rels_added := 0 }
    else if cancelAt = some files.length then
      -- cancellation at the first cross-file probe propagates to the top handler
      { trace := streamed.1 ++
          [.sourceStatusUpdate .failed (some "Parsing was cancelled by user")],
        success := false, cross_rels_added := 0 }
    else
      -- cross-file phase: `build_relationships([], file_contents, ...)`
      let additional_relationships := build_relationships [] files
      { trace := streamed.1 ++
          [.sourceStatusUpdate .completed none, .progressEvent .completed],
        success := true, cross_rels_added := additional_relationships.length }

/-! ### `TreeSitterParser.parse_repository` (`parser.py`) -/

/-- A file of the walked repository tree: path, `stat` size, contents. -/
structure FsFile where
  path : String
  size : Option Nat
  content : String
deriving DecidableEq

/-- The statistics dict of `TreeSitterParser.parse_repository` (the
`filtering_statistics` sub-dict, which holds only derived percentages, is
omitted). -/
structure RepoParseStats where
  total_files_found : Nat
  files_filtered_out : Nat
  files_to_parse : Nat
  parsed_files : Nat
  skipped_files : Nat
  error_files : Nat
  total_nodes : Nat
  total_relationships : Nat
  parse_errors : List (String × String)
  languages_detected : List String
deriving DecidableEq

/-- Phase 2 of `parse_repository`: intelligent filtering plus the optional
`file_filters` substring patterns (`if file_filters:` — `None` and `[]`
are both falsy). -/
def filesToParse (files : List FsFile) (file_filters : Option (List String)) :
    List FsFile :=
  files.filter (fun f =>
    parserShouldParseFile f.path f.size &&
    (match file_filters with
     | some pats => if pats ≠ [] then pats.any (fun p => pyIn p f.path) else true
     | none => true))

/-- `result.success` where `result` is the tuple returned by
`await self.parse_file(...)`: a tuple has no attribute `success`, so the
access raises `AttributeError` unconditionally. -/
def pyTupleAttrSuccess
    (_t : List KGNode × List KGRelationship × FileParseResult) :
    Except PyErr Bool :=
  .error (.exception "AttributeError" "'tuple' object has no attribute 'success'")

/-- One iteration of phase 3 of `parse_repository`: parse the file, then
branch on `result.success`; any exception lands in the
`except Exception` arm (`skipped_files += 1` and an error record). -/
def repoLoopStep (repoId : Nat) (stats : RepoParseStats) (f : FsFile) :
    RepoParseStats :=
  match (parse_file f.path f.content repoId 0 none).bind pyTupleAttrSuccess with
  | .ok success =>
    if success then
      { stats with parsed_files := stats.parsed_files + 1 }
    else
      { stats with error_files := stats.error_files + 1 }
  | .error e =>
    { stats with skipped_files := stats.skipped_files + 1,
                 parse_errors := stats.parse_errors ++ [(f.path, e.str)] }

/-- `TreeSitterParser.parse_repository`: `all_nodes` and
`all_relationships` are initialised empty and never appended to; the
statistics are accumulated by the phase-3 loop. -/
def parserParseRepository (files : List FsFile)
    (file_filters : Option (List String) := none) (repoId : Nat := 0) :
    List KGNode × List KGRelationship × RepoParseStats :=
  let ftp := filesToParse files file_filters
  let stats0 : RepoParseStats :=
    { total_files_found := files.length,
      files_filtered_out := files.length - ftp.length,
      files_to_parse := ftp.length,
      parsed_files := 0, skipped_files := 0, error_files := 0,
      total_nodes := 0, total_relationships := 0,
      parse_errors := [], languages_detected := [] }
  ([], [], ftp.foldl (repoLoopStep repoId) stats0)

/-! ### Derived notions used by the claims -/

/-- The `contains` in-degree of node id `nid` in an edge list. -/
def containsInDeg (rels : List KGRelationship) (nid : Nat) : Nat :=
  rels.countP (fun r =>
    decide (r.relationship_type = .contains ∧ r.target_node_id = nid))

/-- The structural invariant of one (node, relationship) pair emitted by the
object-oriented parser loop: the relationship targets the node, stems from
the file node, the node has no `line_end`, is not a file node, lives in the
parsed file, its relationship kind matches its node kind, and its id is at
least `lo`. -/
def ooPairOk (path : String) (fid lo : Nat) (p : KGNode × KGRelationship) : Prop :=
  p.2.target_node_id = p.1.id ∧ p.2.source_node_id = fid ∧
  p.1.line_end = none ∧ p.1.node_type ≠ .file ∧ p.1.file_path = path ∧
  (p.1.node_type = .import_ → p.2.relationship_type = .imports) ∧
  (p.1.node_type ≠ .import_ → p.2.relationship_type = .contains) ∧
  lo ≤ p.1.id

/-- `walkTo g p b`: the vertices of `p` are joined by consecutive edges of
`g` and the last one (if any) has an edge to `b`. -/
def walkTo (g : DepGraph) : List String → String → Prop
  | [], _ => True
  | [a], b => depStep g a b
  | a :: a' :: rest, b => depStep g a a' ∧ walkTo g (a' :: rest) b

/-! ### Concrete inputs of the end-to-end claims -/

/-- Scenario file `a.py`. -/
def c2ContentA : String := "class Foo:\n    def bar(self): pass\n"

/-- Scenario file `b.py`. -/
def c2ContentB : String := "from a import Foo\nclass Baz(Foo):\n    pass\n"

/-- Parse of `a.py` (uuid supply starting at 0: file node 0, `Foo` 1, `bar` 3). -/
def c2ParseA : List KGNode × List KGRelationship := parseOO c2ContentA "a.py" "python" 1 0

/-- Parse of `b.py` (uuid supply starting at 100: file node 100, import `a`
101, `Baz` 103). -/
def c2ParseB : List KGNode × List KGRelationship := parseOO c2ContentB "b.py" "python" 1 100

/-- All nodes of the two-file scenario. -/
def c2AllNodes : List KGNode := c2ParseA.1 ++ c2ParseB.1

/-- The produced edge set: the parser's edges for both files followed by the
graph builder's edges over all nodes and texts. -/
def c2AllRels : List KGRelationship :=
  c2ParseA.2 ++ c2ParseB.2 ++
    build_relationships c2AllNodes [("a.py", c2ContentA), ("b.py", c2ContentB)]

/-- The name of the node a relationship endpoint refers to. -/
def c2NodeName (nid : Nat) : Option String :=
  (c2AllNodes.find? (fun n => n.id = nid)).map (fun n => n.name)

/-- The single-file counterexample input for the containment claim. -/
def c1Content : String := "class Foo:\n    pass\n"

/-- Its parse (file node 0, class `Foo` 1). -/
def c1Parse : List KGNode × List KGRelationship := parseOO c1Content "a.py" "python" 1 0

/-- The combined edge set: the parser's `contains` edges plus the
containment pass. -/
def c1CombinedRels : List KGRelationship := c1Parse.2 ++ buildContainment c1Parse.1

/-- The `Foo` class node of the counterexample parse (index 1 of the node
list, after the file node). -/
def c1FooNode : KGNode := c1Parse.1.getD 1 (mkFileNode "" "" "" 0 0)

/-- A graph holding the simple 2-cycle `X → Y → X` alongside the 3-cycle
`X → Z → Y → X`, with `Z` before `Y` in `X`'s neighbour iteration order. -/
def c7GraphBad : DepGraph := [("X", ["Z", "Y"]), ("Z", ["Y"]), ("Y", ["X"])]

/-- The spec's scenario graph `A→B, B→C, C→A`. -/
def c7GraphABC : DepGraph := [("A", ["B"]), ("B", ["C"]), ("C", ["A"])]

/-- A two-vertex DAG used to witness the DAG half of the cycle claim. -/
def c7GraphDag : DepGraph := [("A", ["B"])]

/-- A one-row store used to witness the query-graph claim. -/
def c8Store : KGStore :=
  { nodes := [{ id := "n1", kg_repository_id := "r1", node_type := "file", language := "python" }],
    rels := [] }

/-- A node-type-filtered query against `c8Store`. -/
def c8Query : GraphQueryM := { repository_id := "r1", node_types := some ["file"] }

/-! ## Theorems -/

/-! ### Shared lemmas -/

theorem foldl_add_shift (l : List String) (f : String → Nat) (a : Nat) :
    l.foldl (fun acc kw => acc + f kw) a = a + l.foldl (fun acc kw => acc + f kw) 0 := by
  induction l generalizing a with
  | nil => simp
  | cons x xs ih =>
    simp only [List.foldl_cons]
    rw [ih (a + f x), ih (0 + f x)]
    omega

theorem foldl_id_of_step_id {α β : Type} (f : β → α → β) (h : ∀ b a, f b a = b) :
    ∀ (l : List α) (acc : β), l.foldl f acc = acc := by
  intro l
  induction l with
  | nil => intro acc; rfl
  | cons x xs ih => intro acc; rw [List.foldl_cons, h acc x]; exact ih acc

/-! ### C9 — complexity scoring -/

/-- **C9.** For every code body and language, `calculate_complexity_score`
equals the spec's formula (base 1 plus the language's control-keyword
occurrences among the whitespace tokens of the lowercased body, mapped
through `min(10, max(1, count / 5 + 1))` with integer division, and 1 when
the language has `complexity_enabled` off); in particular the score always
lies in `[1, 10]`. -/
theorem c9_complexity_score (content language : String) :
    calculate_complexity_score content language = specComplexityScore content language ∧
    1 ≤ calculate_complexity_score content language ∧
    calculate_complexity_score content language ≤ 10 ∧
    (complexityEnabledFor language = false →
      calculate_complexity_score content language = 1) := by
  unfold calculate_complexity_score specComplexityScore
  cases he : complexityEnabledFor language with
  | false => simp
  | true =>
    simp only [he, Bool.not_true, Bool.false_eq_true, if_false, if_true,
      Bool.true_eq_false, false_implies, and_true]
    cases hk : complexityKeywords language with
    | nil =>
      refine ⟨by simp, by simp, by simp⟩
    | cons k ks =>
      simp only [reduceCtorEq, if_false]
      rw [foldl_add_shift]
      refine ⟨by rw [min_comm, max_comm], le_min (le_max_right _ _) (by norm_num),
        min_le_right _ _⟩

/-- Witness for C9 at a concrete Python body and at a
complexity-disabled language. -/
theorem c9_complexity_score_witness :
    (calculate_complexity_score "if x:\n    return 1\n" "python" =
        specComplexityScore "if x:\n    return 1\n" "python" ∧
      1 ≤ calculate_complexity_score "if x:\n    return 1\n" "python" ∧
      calculate_complexity_score "if x:\n    return 1\n" "python" ≤ 10 ∧
      (complexityEnabledFor "python" = false →
        calculate_complexity_score "if x:\n    return 1\n" "python" = 1)) ∧
    (complexityEnabledFor "json" = false →
      calculate_complexity_score "[1, 2]" "json" = 1) :=
  ⟨c9_complexity_score "if x:\n    return 1\n" "python",
   (c9_complexity_score "[1, 2]" "json").2.2.2⟩

/-! ### C10 — file-filter decision -/

/-- **C10.** The filter rejects every path whose size exceeds
`max_file_size_kb * 1024` and every path with an excluded directory
component; concretely, `node_modules/x/index.js` at 10 KB and
`src/main/app.py` at 600 KB are rejected, `src/main/app.py` at 10 KB is
accepted, and the Python priority rules reject `tests/test_app.py`. -/
theorem c10_file_filter :
    (∀ (ff : FileFilter) (path : String) (sz : Nat),
      sz > ff.max_file_size_kb * 1024 →
      ff.should_parse_file path (some sz) = false) ∧
    (∀ (ff : FileFilter) (path : String) (sz : Option Nat) (part : String),
      part ∈ pyPathParts path →
      ff.excluded_directories.contains (pyLower part) = true →
      ff.should_parse_file path sz = false) ∧
    parserShouldParseFile "node_modules/x/index.js" (some 10240) = false ∧
    parserShouldParseFile "src/main/app.py" (some 10240) = true ∧
    parserShouldParseFile "src/main/app.py" (some 614400) = false ∧
    parserShouldParseFile "tests/test_app.py" none = false := by
  refine ⟨?_, ?_, by decide, by decide, by decide, by decide⟩
  · intro ff path sz h
    simp [FileFilter.should_parse_file, h]
  · intro ff path sz part hmem hcont
    have hdir : isInExcludedDirectory ff path = true := by
      unfold isInExcludedDirectory
      refine List.any_eq_true.mpr ⟨part, hmem, ?_⟩
      have : pyLower part ∈ ff.excluded_directories := by
        simpa using hcont
      simp [this]
    have hrest : ff.shouldParseRest path = false := by
      simp [FileFilter.shouldParseRest, hdir]
    cases sz with
    | none => simpa [FileFilter.should_parse_file] using hrest
    | some s =>
      simp only [FileFilter.should_parse_file]
      split
      · rfl
      · exact hrest

/-- Witness for C10: a 600 000-byte file is rejected by the default 500 KB
ceiling, and a file under `venv/` is rejected by the directory rule. -/
theorem c10_file_filter_witness :
    defaultFileFilter.should_parse_file "a.py" (some 600000) = false ∧
    defaultFileFilter.should_parse_file "venv/app.py" none = false :=
  ⟨c10_file_filter.1 defaultFileFilter "a.py" 600000 (by decide),
   c10_file_filter.2.1 defaultFileFilter "venv/app.py" none "venv" (by decide) (by decide)⟩

/-! ### C3 — `build_relationships` on an empty node list -/

theorem crossFile_nil (fc : List (String × String)) : crossFile [] fc = [] := by
  unfold crossFile
  simp only [List.filter_nil, List.filterMap_nil, List.nil_append]
  exact foldl_id_of_step_id _ (fun b a => by simp) fc []

/-- **C3.** For every `file_contents` mapping, `build_relationships` on an
empty node list returns no relationships; consequently the orchestrator's
cross-file phase, which passes an empty node list, contributes zero
relationships to every job. -/
theorem c3_empty_nodes :
    (∀ fc : List (String × String), build_relationships [] fc = []) ∧
    (∀ (files : List (String × String)) (cancelAt : Option Nat),
      (serviceParseRepository files cancelAt).cross_rels_added = 0) := by
  have hmain : ∀ fc : List (String × String), build_relationships [] fc = [] := by
    intro fc
    unfold build_relationships
    rw [crossFile_nil]
    simp [nodesByFile, buildContainment]
  refine ⟨hmain, ?_⟩
  intro files cancelAt
  simp only [serviceParseRepository, hmain, List.length_nil]
  split
  · rfl
  · split
    · rfl
    · split
      · rfl
      · rfl

/-! ### C4 — `TreeSitterParser.parse_repository` -/

theorem repoLoopStep_skips (repoId : Nat) (stats : RepoParseStats) (f : FsFile) :
    repoLoopStep repoId stats f =
      { stats with skipped_files := stats.skipped_files + 1,
                   parse_errors := stats.parse_errors ++
                     [(f.path, (match (parse_file f.path f.content repoId 0 none).bind
                        pyTupleAttrSuccess with
                        | .ok _ => ""
                        | .error e => e.str))] } := by
  unfold repoLoopStep
  cases h : parse_file f.path f.content repoId 0 none with
  | error e => simp [Except.bind, h]
  | ok t => simp [Except.bind, h, pyTupleAttrSuccess]

theorem repoLoop_fold (repoId : Nat) :
    ∀ (fs : List FsFile) (stats : RepoParseStats),
      (fs.foldl (repoLoopStep repoId) stats).parsed_files = stats.parsed_files ∧
      (fs.foldl (repoLoopStep repoId) stats).total_nodes = stats.total_nodes ∧
      (fs.foldl (repoLoopStep repoId) stats).skipped_files =
        stats.skipped_files + fs.length := by
  intro fs
  induction fs with
  | nil => intro stats; simp
  | cons f rest ih =>
    intro stats
    rw [List.foldl_cons, repoLoopStep_skips]
    refine ⟨(ih _).1, (ih _).2.1, ?_⟩
    rw [(ih _).2.2]
    simp only [List.length_cons]
    omega

/-- **C4.** For every walked file tree and filter settings,
`TreeSitterParser.parse_repository` returns empty node and relationship
lists, with `parsed_files = 0`, `total_nodes = 0`, and `skipped_files`
equal to the number of files selected for parsing: the loop body reads
`result.success` off the tuple returned by `parse_file`, so every per-file
iteration raises `AttributeError` and lands in the exception arm. -/
theorem c4_parse_repository (files : List FsFile)
    (file_filters : Option (List String)) (repoId : Nat) :
    (parserParseRepository files file_filters repoId).1 = [] ∧
    (parserParseRepository files file_filters repoId).2.1 = [] ∧
    (parserParseRepository files file_filters repoId).2.2.parsed_files = 0 ∧
    (parserParseRepository files file_filters repoId).2.2.total_nodes = 0 ∧
    (parserParseRepository files file_filters repoId).2.2.skipped_files =
      (filesToParse files file_filters).length := by
  refine ⟨rfl, rfl, ?_, ?_, ?_⟩
  · exact (repoLoop_fold repoId _ _).1
  · exact (repoLoop_fold repoId _ _).2.1
  · have h := (repoLoop_fold repoId (filesToParse files file_filters)
      { total_files_found := files.length,
        files_filtered_out := files.length - (filesToParse files file_filters).length,
        files_to_parse := (filesToParse files file_filters).length,
        parsed_files := 0, skipped_files := 0, error_files := 0,
        total_nodes := 0, total_relationships := 0,
        parse_errors := [], languages_detected := [] }).2.2
    simpa using h

/-! ### C5 — `parse_file` error handling -/

/-- **C5 counterexample.** With a cancellation probe that raises an
ordinary `Exception` (`ValueError`), parsing raises an exception, yet
`parse_file` does not return a failed `FileParseResult`: the
`except Exception` handler reads the still-unassigned local `language` and
the call raises `UnboundLocalError` instead. -/
theorem c5_counterexample :
    parse_file "a.py" "x = 1\n" 0 0 (some (.exception "ValueError" "stop")) =
      .error unboundLanguageError ∧
    (parse_file "a.py" "x = 1\n" 0 0 (some (.exception "ValueError" "stop"))).isOk = false := by
  constructor <;> rfl

/-- **C5 (amended).** `parse_file` on an undetectable-language file returns
a failed `FileParseResult` with error `"Unsupported file type"` and empty
node/relationship lists; and every `Exception` raised by the per-language
parsing — after `language` is assigned — yields a failed `FileParseResult`
carrying `str(e)` with empty lists (never a partial node list).  (An
`Exception` raised by the initial cancellation probe instead escapes as
`UnboundLocalError`, and a `CancelledError` propagates unchanged.) -/
theorem c5_parse_file_errors (file_path content : String) (repoId supply : Nat) :
    (detect_language file_path = none →
      parse_file file_path content repoId supply none =
        .ok ([], [],
          { file_path := file_path, language := "unknown", success := false,
            nodes_extracted := 0, relationships_extracted := 0,
            parse_time_ms := 0, error := some "Unsupported file type" })) ∧
    (∀ (language : String) (e : PyErr),
      detect_language file_path = some language →
      parseDispatch language file_path content repoId supply = .error e →
      e.isException = true →
      parse_file file_path content repoId supply none =
        .ok ([], [],
          { file_path := file_path, language := language, success := false,
            nodes_extracted := 0, relationships_extracted := 0,
            parse_time_ms := 0, error := some e.str })) := by
  constructor
  · intro h
    simp [parse_file, h]
  · intro language e hdet hdisp hexc
    simp [parse_file, hdet, hdisp, hexc]

/-- Witness for C5 (amended): an unsupported extension, and a Go file whose
method-style header makes the procedural branch raise `IndexError`. -/
theorem c5_parse_file_errors_witness :
    parse_file "x.dat" "stuff" 0 0 none =
      .ok ([], [],
        { file_path := "x.dat", language := "unknown", success := false,
          nodes_extracted := 0, relationships_extracted := 0,
          parse_time_ms := 0, error := some "Unsupported file type" }) ∧
    parse_file "m.go" "func (x T) m() {}\n" 0 0 none =
      .ok ([], [],
        { file_path := "m.go", language := "go", success := false,
          nodes_extracted := 0, relationships_extracted := 0,
          parse_time_ms := 0, error := some "string index out of range" }) :=
  ⟨(c5_parse_file_errors "x.dat" "stuff" 0 0).1 rfl,
   (c5_parse_file_errors "m.go" "func (x T) m() {}\n" 0 0).2 "go"
     (.exception "IndexError" "string index out of range") rfl rfl rfl⟩

/-! ### C8 — `query_graph` -/

theorem dedup_fold_nodup (rels : List RelRow) :
    ∀ (seen : List String) (out : List RelRow),
      (out.map (fun r => r.id)).Nodup → (∀ r ∈ out, r.id ∈ seen) →
      (((rels.foldl
          (fun (acc : List String × List RelRow) rel =>
            if acc.1.contains rel.id then acc else (acc.1 ++ [rel.id], acc.2 ++ [rel]))
          (seen, out)).2).map (fun r => r.id)).Nodup := by
  induction rels with
  | nil => intro seen out h _; simpa using h
  | cons rel rest ih =>
    intro seen out hnd hsub
    rw [List.foldl_cons]
    cases hc : seen.contains rel.id with
    | true =>
      simp only [hc, if_true]
      exact ih seen out hnd hsub
    | false =>
      have hid : rel.id ∉ seen := by simpa using hc
      simp only [hc, Bool.false_eq_true, if_false]
      refine ih (seen ++ [rel.id]) (out ++ [rel]) ?_ ?_
      · rw [List.map_append]
        rw [List.nodup_append]
        refine ⟨hnd, by simp, ?_⟩
        intro x hx
        simp only [List.map_cons, List.map_nil, List.mem_singleton]
        intro hxr
        rcases List.mem_map.mp hx with ⟨o, ho, rfl⟩
        exact hid (hxr ▸ hsub o ho)
      · intro r hr
        rcases List.mem_append.mp hr with h | h
        · exact List.mem_append_left _ (hsub r h)
        · simp only [List.mem_singleton] at h
          subst h
          simp

theorem dedupById_nodup (rels : List RelRow) :
    ((dedupById rels).map (fun r => r.id)).Nodup :=
  dedup_fold_nodup rels [] [] (by simp) (by simp)

theorem nodup_filter_dedup (p : RelRow → Bool) (rels : List RelRow) :
    (((dedupById rels).filter p).map (fun r => r.id)).Nodup := by
  refine List.Nodup.sublist ?_ (dedupById_nodup rels)
  exact List.Sublist.map _ (List.filter_sublist _)

/-- **C8.** Every `query_graph` result has at most 1 000 nodes, each
relationship id appears at most once, every returned relationship has both
endpoints among the returned nodes, and with a (nonempty) `node_types`
filter every returned node's kind lies in the given set. -/
theorem c8_query_graph (store : KGStore) (q : GraphQueryM) :
    (query_graph store q).nodes.length ≤ 1000 ∧
    ((query_graph store q).relationships.map (fun r => r.id)).Nodup ∧
    (∀ r ∈ (query_graph store q).relationships,
      r.source_node_id ∈ (query_graph store q).nodes.map (fun n => n.id) ∧
      r.target_node_id ∈ (query_graph store q).nodes.map (fun n => n.id)) ∧
    (∀ ts, q.node_types = some ts → ts ≠ [] →
      ∀ n ∈ (query_graph store q).nodes, n.node_type ∈ ts) := by
  unfold query_graph
  dsimp only
  refine ⟨?_, ?_, ?_, ?_⟩
  · rw [List.length_take]
    exact min_le_left _ _
  · split
    · simp
    · exact nodup_filter_dedup _ _
  · intro r hr
    split at hr
    · simp at hr
    · have hp := List.of_mem_filter hr
      rw [Bool.and_eq_true] at hp
      constructor
      · simpa using hp.1
      · simpa using hp.2
  · intro ts hts hne n hn
    have hn3 : n ∈ queryNodesSelect store q := List.take_subset 1000 _ hn
    unfold queryNodesSelect at hn3
    rw [hts] at hn3
    simp only [ne_eq, hne, not_false_iff, if_true] at hn3
    have hn2 : n ∈
        ((store.nodes.filter (fun n => n.kg_repository_id = q.repository_id)).filter
          (fun (n : NodeRow) => ts.contains n.node_type)) := by
      revert hn3
      cases q.language_filter with
      | none => exact fun h => h
      | some lf =>
        by_cases hlf' : lf = ""
        · simp only [hlf', ne_eq, not_true_eq_false, if_false]
          exact fun h => h
        · simp only [ne_eq, hlf', not_false_iff, if_true]
          exact fun h => List.mem_of_mem_filter h
    have := List.of_mem_filter hn2
    simpa using this

/-- Witness for C8 at a one-row store with `node_types = ["file"]`. -/
theorem c8_query_graph_witness :
    ("file" : String) ∈ ["file"] ∧ (query_graph c8Store c8Query).nodes.length ≤ 1000 :=
  ⟨(c8_query_graph c8Store c8Query).2.2.2 ["file"] rfl (by decide)
      { id := "n1", kg_repository_id := "r1", node_type := "file", language := "python" }
      (by decide),
   (c8_query_graph c8Store c8Query).1⟩

/-! ### C2 — the two-file Python mini-repo -/

/-- **C2 counterexample.** On the spec's own two-file input, the produced
edge set contains no `inherits` relationship whatsoever — in particular not
`Baz inherits Foo` with confidence 0.9 (the intra-file name index of `b.py`
does not contain `Foo`) — and no `contains` relationship from `Foo` (id 1)
to `bar` (id 3) (the parser assigns no `line_end`, so the containment pass
never finds a strictly-enclosing parent). -/
theorem c2_mini_repo_counterexample :
    (c2AllNodes.map (fun n => (n.id, n.name)) =
      [(0, "a.py"), (1, "Foo"), (3, "bar"), (100, "b.py"), (101, "a"), (103, "Baz")]) ∧
    (c2AllRels.filter (fun r => r.relationship_type = RelationshipType.inherits)) = [] ∧
    (c2AllRels.filter (fun r => r.relationship_type = RelationshipType.contains ∧
      r.source_node_id = 1 ∧ r.target_node_id = 3)) = [] := by
  refine ⟨by decide, by decide, by decide⟩

/-- **C2 (amended).** The two-file mini-repo yields exactly 2 file nodes
(`a.py`, `b.py`), 2 class nodes (`Foo`, `Baz`), 1 function node (`bar`) and
1 import node (`a`); the produced edge set includes `a.py contains Foo`,
`a.py contains bar` (file-level — not `Foo contains bar`),
`b.py contains Baz`, `b.py imports a` (confidence 1.0) and the cross-file
`imports` edge from the import node `a` to the `a.py` file node with
confidence 0.7; no `inherits` edge is produced, and every `contains` edge
into `bar` stems from the `a.py` file node. -/
theorem c2_mini_repo :
    ((c2AllNodes.filter (fun n => n.node_type = NodeType.file)).map (fun n => n.name) =
      ["a.py", "b.py"]) ∧
    ((c2AllNodes.filter (fun n => n.node_type = NodeType.class_)).map (fun n => n.name) =
      ["Foo", "Baz"]) ∧
    ((c2AllNodes.filter (fun n => n.node_type = NodeType.function)).map (fun n => n.name) =
      ["bar"]) ∧
    ((c2AllNodes.filter (fun n => n.node_type = NodeType.import_)).map (fun n => n.name) =
      ["a"]) ∧
    (∃ r ∈ c2AllRels, r.relationship_type = RelationshipType.contains ∧
      c2NodeName r.source_node_id = some "a.py" ∧
      c2NodeName r.target_node_id = some "Foo" ∧ r.confidence_score = 1) ∧
    (∃ r ∈ c2AllRels, r.relationship_type = RelationshipType.contains ∧
      c2NodeName r.source_node_id = some "a.py" ∧
      c2NodeName r.target_node_id = some "bar" ∧ r.confidence_score = 1) ∧
    (∃ r ∈ c2AllRels, r.relationship_type = RelationshipType.contains ∧
      c2NodeName r.source_node_id = some "b.py" ∧
      c2NodeName r.target_node_id = some "Baz" ∧ r.confidence_score = 1) ∧
    (∃ r ∈ c2AllRels, r.relationship_type = RelationshipType.imports ∧
      c2NodeName r.source_node_id = some "b.py" ∧
      c2NodeName r.target_node_id = some "a" ∧ r.confidence_score = 1) ∧
    (∃ r ∈ c2AllRels, r.relationship_type = RelationshipType.imports ∧
      c2NodeName r.source_node_id = some "a" ∧
      c2NodeName r.target_node_id = some "a.py" ∧ r.confidence_score = mkRat 7 10) ∧
    ((c2AllRels.filter (fun r => r.relationship_type = RelationshipType.inherits)) = []) ∧
    ((c2AllRels.filter (fun r => r.relationship_type = RelationshipType.contains ∧
        r.target_node_id = 3)).all (fun r => r.source_node_id = 0) = true) := by
  refine ⟨by decide, by decide, by decide, by decide, by decide, by decide, by decide,
    by decide, by decide, by decide, by decide⟩

/-! ### C1 — containment in-degree -/

/-- **C1 counterexample.** For the single Python file
`"class Foo:\n    pass\n"`, the non-file node `Foo` (id 1) is the target of
two `contains` relationships after the parser's output and the containment
pass are combined — one from each — not exactly one. -/
theorem c1_containment_counterexample :
    (c1Parse.1.map (fun n => (n.id, n.name, n.node_type)) =
      [(0, "a.py", NodeType.file), (1, "Foo", NodeType.class_)]) ∧
    containsInDeg c1CombinedRels 1 = 2 := by
  refine ⟨by decide, by decide⟩

theorem ooClassPair_ok (lines : List String) (path lang : String)
    (repoId fid i supply : Nat) :
    ooPairOk path fid supply (ooClassPair lines path lang repoId fid i supply) := by
  refine ⟨rfl, rfl, rfl, ?_, rfl, ?_, ?_, le_refl _⟩
  · intro h; exact absurd h (by decide : ¬(NodeType.class_ = NodeType.file))
  · intro h; exact absurd h (by decide : ¬(NodeType.class_ = NodeType.import_))
  · intro _; rfl

theorem ooFuncPair_ok (lines : List String) (path lang : String)
    (repoId fid i supply : Nat) :
    ooPairOk path fid supply (ooFuncPair lines path lang repoId fid i supply) := by
  refine ⟨rfl, rfl, rfl, ?_, rfl, ?_, ?_, le_refl _⟩
  · intro h; exact absurd h (by decide : ¬(NodeType.function = NodeType.file))
  · intro h; exact absurd h (by decide : ¬(NodeType.function = NodeType.import_))
  · intro _; rfl

theorem ooImportPair_ok (lines : List String) (path lang : String)
    (repoId fid i supply : Nat) :
    ooPairOk path fid supply (ooImportPair lines path lang repoId fid i supply) := by
  refine ⟨rfl, rfl, rfl, ?_, rfl, ?_, ?_, le_refl _⟩
  · intro h; exact absurd h (by decide : ¬(NodeType.import_ = NodeType.file))
  · intro _; rfl
  · intro h; exact absurd rfl h

theorem ooPairOk_mono {path : String} {fid lo₁ lo₂ : Nat}
    {p : KGNode × KGRelationship} (h : ooPairOk path fid lo₂ p) (hle : lo₁ ≤ lo₂) :
    ooPairOk path fid lo₁ p := by
  obtain ⟨a, b, c, d, e, f, g, hid⟩ := h
  exact ⟨a, b, c, d, e, f, g, le_trans hle hid⟩

theorem ooPairOk_id_ge {path : String} {fid lo : Nat} {p : KGNode × KGRelationship}
    (h : ooPairOk path fid lo p) : lo ≤ p.1.id := h.2.2.2.2.2.2.2

/-- Structure of the object-oriented parser loop's output: it is a list of
(node, relationship) pairs, each satisfying `ooPairOk` with ids drawn from
`supply` upward, the node ids strictly increasing. -/
theorem ooLoopGo_spec (lines : List String) (path lang : String) (repoId fid : Nat) :
    ∀ (fuel i supply : Nat),
      ∃ ps : List (KGNode × KGRelationship),
        ooLoopGo lines path lang repoId fid fuel i supply =
          (ps.map Prod.fst, ps.map Prod.snd) ∧
        (∀ p ∈ ps, ooPairOk path fid supply p) ∧
        (ps.map (fun p => p.1.id)).Pairwise (· < ·) := by
  intro fuel
  induction fuel with
  | zero => intro i supply; exact ⟨[], rfl, by simp, by simp⟩
  | succ fuel ih =>
    intro i supply
    by_cases hi : i < lines.length
    case neg =>
      refine ⟨[], ?_, by simp, by simp⟩
      simp [ooLoopGo, hi]
    case pos =>
      cases hc1 : (pyStarts "class " (pyStrip (pyGetD lines i "")) &&
          pyIn ":" (pyStrip (pyGetD lines i ""))) with
      | true =>
        obtain ⟨ps, heq, hok, hpw⟩ := ih (i + 1) (supply + 2)
        refine ⟨ooClassPair lines path lang repoId fid i supply :: ps, ?_, ?_, ?_⟩
        · simp only [ooLoopGo, hi, if_true, hc1, heq, List.map_cons]
        · intro p hp
          rcases List.mem_cons.mp hp with rfl | hp
          · exact ooClassPair_ok lines path lang repoId fid i supply
          · exact ooPairOk_mono (hok p hp) (by omega)
        · rw [List.map_cons, List.pairwise_cons]
          refine ⟨?_, hpw⟩
          intro x hx
          rcases List.mem_map.mp hx with ⟨q, hq, rfl⟩
          have := ooPairOk_id_ge (hok q hq)
          show supply < q.1.id
          omega
      | false =>
        cases hc2 : (pyStarts "def " (pyStrip (pyGetD lines i "")) ||
            pyStarts "function " (pyStrip (pyGetD lines i ""))) with
        | true =>
          obtain ⟨ps, heq, hok, hpw⟩ := ih (i + 1) (supply + 2)
          refine ⟨ooFuncPair lines path lang repoId fid i supply :: ps, ?_, ?_, ?_⟩
          · simp only [ooLoopGo, hi, if_true, hc1, hc2, Bool.false_eq_true, if_false,
              heq, List.map_cons]
          · intro p hp
            rcases List.mem_cons.mp hp with rfl | hp
            · exact ooFuncPair_ok lines path lang repoId fid i supply
            · exact ooPairOk_mono (hok p hp) (by omega)
          · rw [List.map_cons, List.pairwise_cons]
            refine ⟨?_, hpw⟩
            intro x hx
            rcases List.mem_map.mp hx with ⟨q, hq, rfl⟩
            have := ooPairOk_id_ge (hok q hq)
            show supply < q.1.id
            omega
        | false =>
          cases hc3 : (pyStarts "import " (pyStrip (pyGetD lines i "")) ||
              pyStarts "from " (pyStrip (pyGetD lines i ""))) with
          | true =>
            obtain ⟨ps, heq, hok, hpw⟩ := ih (i + 1) (supply + 2)
            refine ⟨ooImportPair lines path lang repoId fid i supply :: ps, ?_, ?_, ?_⟩
            · simp only [ooLoopGo, hi, if_true, hc1, hc2, hc3, Bool.false_eq_true,
                if_false, heq, List.map_cons]
            · intro p hp
              rcases List.mem_cons.mp hp with rfl | hp
              · exact ooImportPair_ok lines path lang repoId fid i supply
              · exact ooPairOk_mono (hok p hp) (by omega)
            · rw [List.map_cons, List.pairwise_cons]
              refine ⟨?_, hpw⟩
              intro x hx
              rcases List.mem_map.mp hx with ⟨q, hq, rfl⟩
              have := ooPairOk_id_ge (hok q hq)
              show supply < q.1.id
              omega
          | false =>
            obtain ⟨ps, heq, hok, hpw⟩ := ih (i + 1) supply
            refine ⟨ps, ?_, hok, hpw⟩
            simp only [ooLoopGo, hi, if_true, hc1, hc2, hc3, Bool.false_eq_true,
              if_false, heq]

/-- Output structure of `_parse_object_oriented_file`: the file node
followed by the loop's nodes, with the loop's relationships. -/
theorem parseOO_spec (content path lang : String) (repoId supply : Nat) :
    ∃ ps : List (KGNode × KGRelationship),
      parseOO content path lang repoId supply =
        (mkFileNode content path lang repoId supply :: ps.map Prod.fst,
         ps.map Prod.snd) ∧
      (∀ p ∈ ps, ooPairOk path supply (supply + 1) p) ∧
      (ps.map (fun p => p.1.id)).Pairwise (· < ·) := by
  obtain ⟨ps, heq, hok, hpw⟩ := ooLoopGo_spec (pySplit "\n" content) path lang repoId
    ((mkFileNode content path lang repoId supply).id)
    ((pySplit "\n" content).length - 0) 0 (supply + 1)
  refine ⟨ps, ?_, hok, hpw⟩
  simp only [parseOO, ooLoop, heq]

theorem containsInDeg_append (l₁ l₂ : List KGRelationship) (nid : Nat) :
    containsInDeg (l₁ ++ l₂) nid = containsInDeg l₁ nid + containsInDeg l₂ nid :=
  List.countP_append _ _ _

/-- The parser's own edge list gives each emitted non-file node a `contains`
in-degree of 1 — except import nodes, which receive an `imports` edge. -/
theorem parser_contains_count (path : String) (fid lo : Nat) :
    ∀ (ps : List (KGNode × KGRelationship)),
      (∀ p ∈ ps, ooPairOk path fid lo p) →
      (ps.map (fun p => p.1.id)).Pairwise (· < ·) →
      ∀ n, n ∈ ps.map Prod.fst →
        containsInDeg (ps.map Prod.snd) n.id =
          if n.node_type = .import_ then 0 else 1 := by
  intro ps
  induction ps with
  | nil => intro _ _ n hn; simp at hn
  | cons p rest ih =>
    intro hok hpw n hn
    have hokp := hok p (List.mem_cons_self _ _)
    rw [List.map_cons, List.pairwise_cons] at hpw
    rw [List.map_cons] at hn ⊢
    unfold containsInDeg
    rw [List.countP_cons]
    rcases List.mem_cons.mp hn with rfl | hn
    · have hrest : (rest.map Prod.snd).countP
          (fun r => decide (r.relationship_type = .contains ∧
            r.target_node_id = p.1.id)) = 0 := by
        refine List.countP_eq_zero.mpr ?_
        intro r hr
        rcases List.mem_map.mp hr with ⟨q, hq, rfl⟩
        have hokq := hok q (List.mem_cons_of_mem _ hq)
        have hlt := hpw.1 q.1.id (List.mem_map.mpr ⟨q, hq, rfl⟩)
        simp only [decide_eq_true_eq, not_and]
        intro _
        rw [hokq.1]
        omega
      rw [hrest]
      by_cases himp : p.1.node_type = .import_
      · have : p.2.relationship_type = .imports := hokp.2.2.2.2.2.1 himp
        simp [himp, this, hokp.1]
      · have : p.2.relationship_type = .contains := hokp.2.2.2.2.2.2.1 himp
        simp [himp, this, hokp.1]
    · have hne : p.2.target_node_id ≠ n.id := by
        rcases List.mem_map.mp hn with ⟨q, hq, rfl⟩
        have hlt := hpw.1 q.1.id (List.mem_map.mpr ⟨q, hq, rfl⟩)
        rw [hokp.1]
        omega
      have hhead : (decide (p.2.relationship_type = .contains ∧
          p.2.target_node_id = n.id) : Bool) = false := by
        simp only [decide_eq_false_iff_not, not_and]
        exact fun _ => hne
      rw [hhead]
      simp only [Bool.false_eq_true, if_false, Nat.add_zero]
      have := ih (fun q hq => hok q (List.mem_cons_of_mem _ hq)) hpw.2 n hn
      unfold containsInDeg at this
      exact this

/-- Folding `assocAppend` over nodes that all live at one path extends
that path's single bucket. -/
theorem assoc_fold_const (fp : String) (l : List KGNode) :
    ∀ (acc : List KGNode), (∀ n ∈ l, n.file_path = fp) →
      l.foldl (fun a n => assocAppend a n.file_path n) [(fp, acc)] = [(fp, acc ++ l)] := by
  induction l with
  | nil => intro acc _; simp
  | cons n rest ih =>
    intro acc h
    rw [List.foldl_cons]
    have hn : n.file_path = fp := h n (List.mem_cons_self _ _)
    have h1 : assocAppend [(fp, acc)] n.file_path n = [(fp, acc ++ [n])] := by
      rw [hn]; simp [assocAppend]
    rw [h1, ih (acc ++ [n]) (fun m hm => h m (List.mem_cons_of_mem _ hm))]
    simp

/-- `nodes_by_file` on nodes of a single file is the single-bucket dict. -/
theorem nodesByFile_const (fp : String) (n : KGNode) (rest : List KGNode)
    (hn : n.file_path = fp) (h : ∀ m ∈ rest, m.file_path = fp) :
    nodesByFile (n :: rest) = [(fp, n :: rest)] := by
  unfold nodesByFile
  rw [List.foldl_cons]
  have h1 : assocAppend [] n.file_path n = [(fp, [n])] := by rw [hn]; rfl
  rw [h1, assoc_fold_const fp rest [n] h]
  simp

/-- `_find_parent_node` returns `None` whenever no candidate has a truthy
`line_end` — which is always the case for parser output, since the parser
never sets `line_end`. -/
theorem findParentNode_none (node : KGNode) (ns : List KGNode)
    (h : ∀ c ∈ ns, c.line_end = none) :
    findParentNode node ns = none := by
  simp only [findParentNode]
  split
  · rfl
  · have hf : ns.filter (fun c =>
        decide (c.id ≠ node.id) && pyTruthyNat c.line_start && pyTruthyNat c.line_end &&
        decide (c.line_start.getD 0 < node.line_start.getD 0) &&
        decide (c.line_end.getD 0 > pyOrNat node.line_end node.line_start)) = [] := by
      refine List.filter_eq_nil_iff.mpr ?_
      intro c hc
      simp [h c hc, pyTruthyNat]
    rw [hf]
    rfl

/-- On a one-file node set whose non-file nodes all lack `line_end`,
`_build_containment_relationships` emits exactly one file-level `contains`
edge per non-file node (in sorted order). -/
theorem buildContainment_single (fp : String) (fnode : KGNode) (ns : List KGNode)
    (hfp : fnode.file_path = fp) (hft : fnode.node_type = .file)
    (hpath : ∀ m ∈ ns, m.file_path = fp)
    (hnt : ∀ m ∈ ns, m.node_type ≠ .file)
    (hle : ∀ m ∈ ns, m.line_end = none) :
    buildContainment (fnode :: ns) =
      (sortByLineStart ns).map (fun n =>
        ({ id := 0, source_node_id := fnode.id, target_node_id := n.id,
           relationship_type := .contains, confidence_score := 1,
           context_info := [("containment_type", PyVal.s "file_level")] } :
          KGRelationship)) := by
  unfold buildContainment
  rw [nodesByFile_const fp fnode ns hfp hpath]
  have hfind : (fnode :: ns).find? (fun n => n.node_type = .file) = some fnode :=
    List.find?_cons_of_pos _ (by simp [hft])
  have hfil : (fnode :: ns).filter (fun n => n.node_type ≠ .file) = ns := by
    rw [List.filter_cons_of_neg (by simp [hft])]
    exact List.filter_eq_self.mpr (fun m hm => by simp [hnt m hm])
  have hmem : ∀ c ∈ sortByLineStart ns, c.line_end = none := by
    intro c hc
    unfold sortByLineStart at hc
    exact hle c ((List.perm_insertionSort _ ns).mem_iff.mp hc)
  have hpar : ∀ n, findParentNode n (sortByLineStart ns) = none := fun n =>
    findParentNode_none n _ hmem
  simp only [List.foldl_cons, List.foldl_nil, hfind, hfil, hpar, List.nil_append]

/-- In a node list with strictly increasing ids, each member's id occurs
exactly once. -/
theorem countP_id_unique (ns : List KGNode)
    (hpw : (ns.map (fun m => m.id)).Pairwise (· < ·)) :
    ∀ n ∈ ns, ns.countP (fun m => decide (m.id = n.id)) = 1 := by
  induction ns with
  | nil => intro n hn; simp at hn
  | cons m rest ih =>
    rw [List.map_cons, List.pairwise_cons] at hpw
    intro n hn
    rw [List.countP_cons]
    rcases List.mem_cons.mp hn with rfl | hn
    · have h0 : rest.countP (fun q => decide (q.id = n.id)) = 0 := by
        refine List.countP_eq_zero.mpr ?_
        intro q hq
        have := hpw.1 q.id (List.mem_map.mpr ⟨q, hq, rfl⟩)
        simp only [decide_eq_true_eq]
        omega
      rw [h0]
      simp
    · have hne : (decide (m.id = n.id) : Bool) = false := by
        have := hpw.1 n.id (List.mem_map.mpr ⟨n, hn, rfl⟩)
        simp only [decide_eq_false_iff_not]
        omega
      rw [hne, ih hpw.2 n hn]
      simp

/-- **C1 (amended).** For every file parsed with the object-oriented
parser, after the parser's own edges and the containment pass are
combined, every non-file node is the target of exactly **two** `contains`
relationships if it is a class or function node (one emitted by the parser,
one by the containment pass, both from the file node) and exactly **one**
if it is an import node (the parser emits an `imports` edge instead); the
"smallest strictly-enclosing node" case never fires because the parser
never sets `line_end`. -/
theorem c1_containment (content path lang : String) (repoId supply : Nat) :
    ∀ n ∈ (parseOO content path lang repoId supply).1, n.node_type ≠ .file →
      containsInDeg
        ((parseOO content path lang repoId supply).2 ++
          buildContainment (parseOO content path lang repoId supply).1) n.id =
        if n.node_type = .import_ then 1 else 2 := by
  obtain ⟨ps, heq, hok, hpw⟩ := parseOO_spec content path lang repoId supply
  have h1 : (parseOO content path lang repoId supply).1 =
      mkFileNode content path lang repoId supply :: ps.map Prod.fst := by rw [heq]
  have h2 : (parseOO content path lang repoId supply).2 = ps.map Prod.snd := by rw [heq]
  intro n hn hnf
  rw [h1] at hn
  rcases List.mem_cons.mp hn with rfl | hn
  · exact absurd rfl hnf
  rw [h1, h2, containsInDeg_append]
  have hparser := parser_contains_count path supply (supply + 1) ps hok hpw n hn
  have hcont : buildContainment
      (mkFileNode content path lang repoId supply :: ps.map Prod.fst) =
      (sortByLineStart (ps.map Prod.fst)).map (fun m =>
        ({ id := 0, source_node_id := supply, target_node_id := m.id,
           relationship_type := .contains, confidence_score := 1,
           context_info := [("containment_type", PyVal.s "file_level")] } :
          KGRelationship)) := by
    refine buildContainment_single path _ _ rfl rfl ?_ ?_ ?_
    · intro m hm
      rcases List.mem_map.mp hm with ⟨q, hq, rfl⟩
      exact (hok q hq).2.2.2.2.1
    · intro m hm
      rcases List.mem_map.mp hm with ⟨q, hq, rfl⟩
      exact (hok q hq).2.2.2.1
    · intro m hm
      rcases List.mem_map.mp hm with ⟨q, hq, rfl⟩
      exact (hok q hq).2.2.1
  have hpw' : ((ps.map Prod.fst).map (fun m => m.id)).Pairwise (· < ·) := by
    rw [List.map_map]
    exact hpw
  have hcount : containsInDeg
      ((sortByLineStart (ps.map Prod.fst)).map (fun m =>
        ({ id := 0, source_node_id := supply, target_node_id := m.id,
           relationship_type := .contains, confidence_score := 1,
           context_info := [("containment_type", PyVal.s "file_level")] } :
          KGRelationship))) n.id = 1 := by
    unfold containsInDeg
    rw [List.countP_map]
    have hcongr : ∀ l : List KGNode,
        l.countP ((fun r : KGRelationship =>
          decide (r.relationship_type = .contains ∧ r.target_node_id = n.id)) ∘
          (fun m =>
            ({ id := 0, source_node_id := supply, target_node_id := m.id,
               relationship_type := .contains, confidence_score := 1,
               context_info := [("containment_type", PyVal.s "file_level")] } :
              KGRelationship))) =
        l.countP (fun m => decide (m.id = n.id)) := by
      intro l
      refine List.countP_congr ?_
      intro m _
      simp [Function.comp]
    rw [hcongr]
    have hperm : List.Perm (sortByLineStart (ps.map Prod.fst)) (ps.map Prod.fst) := by
      unfold sortByLineStart
      exact List.perm_insertionSort _ _
    rw [hperm.countP_eq]
    exact countP_id_unique (ps.map Prod.fst) hpw' n hn
  rw [hcont, hparser, hcount]
  by_cases himp : n.node_type = .import_ <;> simp [himp]

/-- Witness for C1 (amended) at the counterexample file: the `Foo` class
node has combined `contains` in-degree 2. -/
theorem c1_containment_witness :
    c1FooNode ∈ (parseOO c1Content "a.py" "python" 1 0).1 ∧
    c1FooNode.node_type ≠ .file ∧
    containsInDeg
      ((parseOO c1Content "a.py" "python" 1 0).2 ++
        buildContainment (parseOO c1Content "a.py" "python" 1 0).1) c1FooNode.id =
      (if c1FooNode.node_type = .import_ then 1 else 2) :=
  ⟨by decide, by decide,
    c1_containment c1Content "a.py" "python" 1 0 c1FooNode (by decide) (by decide)⟩

/-- Dropping the head of a walk leaves a walk. -/
theorem walkTo_tail (g : DepGraph) (x : String) (xs : List String) (b : String)
    (h : walkTo g (x :: xs) b) : walkTo g xs b := by
  cases xs with
  | nil => trivial
  | cons a rest =>
    have h' : depStep g x a ∧ walkTo g (a :: rest) b := h
    exact h'.2

/-- A nonempty walk from `a` to `b` witnesses transitive reachability. -/
theorem walkTo_cons_transGen (g : DepGraph) :
    ∀ (xs : List String) (a b : String), walkTo g (a :: xs) b →
      Relation.TransGen (depStep g) a b := by
  intro xs
  induction xs with
  | nil =>
    intro a b h
    have h' : depStep g a b := h
    exact Relation.TransGen.single h'
  | cons a' rest ih =>
    intro a b h
    have h' : depStep g a a' ∧ walkTo g (a' :: rest) b := h
    exact Relation.TransGen.head h'.1 (ih a' b h'.2)

/-- Every vertex on a walk to `b` reaches `b`. -/
theorem walkTo_mem_transGen (g : DepGraph) :
    ∀ (path : List String) (b a : String), walkTo g path b → a ∈ path →
      Relation.TransGen (depStep g) a b := by
  intro path
  induction path with
  | nil => intro b a _ ha; exact absurd ha (List.not_mem_nil a)
  | cons x xs ih =>
    intro b a h ha
    rcases List.mem_cons.mp ha with rfl | ha
    · exact walkTo_cons_transGen g xs a b h
    · exact ih b a (walkTo_tail g x xs b h) ha

/-- A walk extends along one more edge. -/
theorem walkTo_append (g : DepGraph) :
    ∀ (path : List String) (node nb : String),
      walkTo g path node → depStep g node nb → walkTo g (path ++ [node]) nb := by
  intro path
  induction path with
  | nil => intro node nb _ h2; exact h2
  | cons a rest ih =>
    intro node nb h1 h2
    cases rest with
    | nil =>
      have h1' : depStep g a node := h1
      exact ⟨h1', h2⟩
    | cons a' rest' =>
      have h1' : depStep g a a' ∧ walkTo g (a' :: rest') node := h1
      exact ⟨h1'.1, ih node nb h1'.2 h2⟩

/-- A fold whose every step preserves the second component preserves it. -/
theorem foldl_snd_const {α β γ : Type} (f : β × γ → α → β × γ) :
    ∀ (l : List α) (acc : β × γ),
      (∀ a ∈ l, ∀ acc' : β × γ, (f acc' a).2 = acc'.2) →
      (l.foldl f acc).2 = acc.2 := by
  intro l
  induction l with
  | nil => intro acc _; rfl
  | cons x xs ih =>
    intro acc h
    rw [List.foldl_cons,
      ih (f acc x) (fun a ha acc' => h a (List.mem_cons_of_mem _ ha) acc')]
    exact h x (List.mem_cons_self _ _) acc

/-- On an acyclic graph the DFS never re-enters its recursion stack, so it
adds no cycle, for any fuel. -/
theorem dfsDetect_dag (g : DepGraph)
    (hdag : ∀ a, ¬ Relation.TransGen (depStep g) a a) :
    ∀ (fuel : Nat) (node : String) (path : List String)
      (vc : List String × List (List String)),
      walkTo g path node →
      (dfsDetect g fuel node path path vc).2 = vc.2 := by
  intro fuel
  induction fuel with
  | zero => intro node path vc _; rfl
  | succ fuel ih =>
    intro node path vc hwalk
    obtain ⟨visited, cycles⟩ := vc
    by_cases hrec : node ∈ path
    · exact absurd (walkTo_mem_transGen g path node node hwalk hrec) (hdag node)
    · by_cases hvis : node ∈ visited
      · simp [dfsDetect, hrec, hvis]
      · simp only [dfsDetect]
        rw [if_neg (by simpa using hrec), if_neg (by simpa using hvis)]
        refine foldl_snd_const _ _ _ ?_
        intro nb hnb acc
        exact ih nb (path ++ [node]) acc (walkTo_append g path node nb hwalk hnb)

/-- Every edge of the two-vertex DAG goes from `"A"` to `"B"`. -/
theorem c7dag_step : ∀ a b : String, depStep c7GraphDag a b → a = "A" ∧ b = "B" := by
  intro a b h
  rcases eq_or_ne "A" a with ha | ha
  · subst ha
    simp only [depStep, neighborsOf, c7GraphDag] at h
    simp at h
    exact ⟨rfl, h⟩
  · exfalso
    simp [depStep, neighborsOf, c7GraphDag, List.find?_cons, ha] at h

/-- The two-vertex DAG has no directed cycle. -/
theorem c7dag_acyclic : ∀ a, ¬ Relation.TransGen (depStep c7GraphDag) a a := by
  intro a h
  have h1 : ∀ x y, Relation.TransGen (depStep c7GraphDag) x y → x = "A" ∧ y = "B" := by
    intro x y hxy
    induction hxy with
    | single hs => exact c7dag_step _ _ hs
    | tail _ hs ih => exact ⟨ih.1, (c7dag_step _ _ hs).2⟩
  have h2 := h1 a a h
  exact absurd (h2.1.symm.trans h2.2) (by decide)

/-- **C7 counterexample.** The graph `X → {Z, Y}, Z → {Y}, Y → {X}`
contains the simple 2-cycle `X → Y → X`, but with `Z` ahead of `Y` in
`X`'s neighbour iteration order the DFS reports only the 3-cycle
`X → Z → Y → X`, so no reported cycle has vertex set `{X, Y}` — the
vertex-set half of the claim fails for that simple cycle. -/
theorem c7_cycles_counterexample :
    "Y" ∈ neighborsOf c7GraphBad "X" ∧ "X" ∈ neighborsOf c7GraphBad "Y" ∧
    detectCycles c7GraphBad = [["X", "Z", "Y", "X"]] ∧
    ∀ c ∈ detectCycles c7GraphBad,
      ¬((∀ v ∈ c, v ∈ ["X", "Y"]) ∧ ∀ v ∈ ["X", "Y"], v ∈ c) := by
  decide

/-- **C7 (amended).** The DAG half holds for every dependency graph: if no
vertex transitively reaches itself, `_detect_cycles` returns `[]`.  The
vertex-set half does not hold for every simple cycle (the DFS may route
through a longer cycle first), but it does hold in the spec's own
scenario `A → B → C → A`: the single reported cycle is
`["A", "B", "C", "A"]`, whose vertex set equals `{A, B, C}`. -/
theorem c7_cycle_detection :
    (∀ g : DepGraph, (∀ a, ¬ Relation.TransGen (depStep g) a a) →
      detectCycles g = []) ∧
    (detectCycles c7GraphABC = [["A", "B", "C", "A"]] ∧
      (∀ v ∈ ["A", "B", "C", "A"], v ∈ ["A", "B", "C"]) ∧
      ∀ v ∈ ["A", "B", "C"], v ∈ (["A", "B", "C", "A"] : List String)) := by
  constructor
  · intro g hdag
    simp only [detectCycles]
    refine foldl_snd_const _ g ([], []) ?_
    intro kv _ acc
    split
    · rfl
    · exact dfsDetect_dag g hdag _ kv.1 [] acc trivial
  · decide

/-- Witness for C7 (amended): the DAG half applied to the concrete
two-vertex DAG `A → B`. -/
theorem c7_cycle_detection_witness : detectCycles c7GraphDag = [] :=
  c7_cycle_detection.1 c7GraphDag c7dag_acyclic

/-- If the cancellation index lies among the remaining files, the
streaming loop terminates with the `CancelledError` escaping. -/
theorem streamLoop_cancel (repoId total : Nat) :
    ∀ (rest : List (String × String)) (idx processed : Nat) (acc : List JobEffect)
      (i : Nat), idx ≤ i → i < idx + rest.length →
      (streamLoop repoId (some i) total rest idx processed acc).2 = true := by
  intro rest
  induction rest with
  | nil =>
    intro idx processed acc i h1 h2
    simp only [List.length_nil, Nat.add_zero] at h2
    omega
  | cons f rest ih =>
    intro idx processed acc i h1 h2
    obtain ⟨fp, content⟩ := f
    by_cases hidx : i = idx
    · subst hidx
      simp [streamLoop, parse_file, PyErr.isException]
    · have hc : (if (some i : Option Nat) = some idx
          then some (PyErr.cancelled "Parsing was cancelled") else none) = none := by
        simp [hidx]
      simp only [streamLoop, hc]
      cases hp : parse_file fp content repoId 0 none with
      | error e =>
        cases he : e.isException with
        | true =>
          simp only [he, if_true]
          exact ih (idx + 1) (processed + 1) acc i (by omega)
            (by simp only [List.length_cons] at h2; omega)
        | false =>
          simp only [he, Bool.false_eq_true, if_false]
      | ok v =>
        exact ih (idx + 1) _ _ i (by omega)
          (by simp only [List.length_cons] at h2; omega)

/-- **C6.** Cancelling a parse job at any point — between two files, or at
the cross-file phase once all files are streamed — terminates the job
unsuccessfully with the Source row set to `failed` and error exactly
`"Parsing was cancelled by user"`, and that failed status update is the
last event of the trace: no progress event is emitted after the
cancellation takes effect. -/
theorem c6_cancellation (files : List (String × String)) (i : Nat)
    (hne : files ≠ []) (hi : i ≤ files.length) :
    (serviceParseRepository files (some i)).success = false ∧
    (serviceParseRepository files (some i)).trace.getLast? =
      some (.sourceStatusUpdate .failed (some "Parsing was cancelled by user")) := by
  have hemp : files.isEmpty = false := by
    cases files with
    | nil => exact absurd rfl hne
    | cons f fs => rfl
  cases h2 : (streamLoop 0 (some i) files.length files 0 0
      [JobEffect.progressEvent ParsingStatus.processing]).2 with
  | true =>
    simp only [serviceParseRepository, hemp, Bool.false_eq_true, if_false, h2, if_true]
    exact ⟨trivial, List.getLast?_concat _⟩
  | false =>
    have heq : i = files.length := by
      rcases lt_or_eq_of_le hi with hlt | heq
      · exact absurd (streamLoop_cancel 0 files.length files 0 0
          [JobEffect.progressEvent ParsingStatus.processing] i (Nat.zero_le i)
          (by simpa using hlt)) (by simp [h2])
      · exact heq
    subst heq
    simp only [serviceParseRepository, hemp, Bool.false_eq_true, if_false, h2, if_true]
    exact ⟨trivial, List.getLast?_concat _⟩

/-- Witness for C6: a one-file job cancelled before its first file. -/
theorem c6_cancellation_witness :
    ([("a.py", "x = 1\n")] : List (String × String)) ≠ [] ∧
    0 ≤ ([("a.py", "x = 1\n")] : List (String × String)).length ∧
    ((serviceParseRepository [("a.py", "x = 1\n")] (some 0)).success = false ∧
      (serviceParseRepository [("a.py", "x = 1\n")] (some 0)).trace.getLast? =
        some (.sourceStatusUpdate .failed (some "Parsing was cancelled by user"))) :=
  ⟨by decide, by decide,
    c6_cancellation [("a.py", "x = 1\n")] 0 (by decide) (by decide)⟩

end Archon
